import Mathlib

/-!
Shallow embedding of the bodyapp Scoring & Progression Engine
(`be/services/scoring.py`, `be/services/feature_extraction.py`,
`be/body_analysis.py`, `be/database/connection.py`, `be/api/physique.py`)
and proofs about the frozen claims.

Modelling conventions:
* Python floats are modelled by exact rationals (`ℚ`).  `math.sqrt` is kept
  abstract: every computation takes a square-root interpretation
  `s : ℚ → ℚ`; universally quantified theorems assume only the elementary
  facts of a square root that they need (nonnegativity on nonnegative
  arguments, `s 0 = 0`), so they hold in particular for the real square
  root.  Concrete witnesses instantiate `s` with `sqrt_w`, a function that
  agrees with the real square root on every argument arising in those
  concrete computations (all of them squares of rationals).
* A Python function that can raise (IndexError on a too-short landmark
  list, KeyError on a missing dict key, ZeroDivisionError, ValueError) is
  embedded as an `Option`-valued function; `none` models the raise.
* Python `int(x)` (truncation toward zero) is `int_trunc`; Python `round`
  (banker's rounding, used by the feature extractor) is `pyRound` /
  `pyRoundTo`.
* Python dicts with a fixed key set are records; the landmark lists are
  `List Point` indexed with `l[i]?`.
-/

namespace BodyApp

/-- A pose landmark.  Only the `x` and `y` coordinates are ever read by the
scoring code (`z` and `visibility` are never used), so the embedding keeps
just those two fields. -/
structure Point where
  x : ℚ
  y : ℚ
deriving DecidableEq, Repr

/-- Python `int(q)` for a float value: truncation toward zero. -/
def int_trunc (q : ℚ) : ℤ :=
  if q < 0 then -⌊-q⌋ else ⌊q⌋

/-- Python `round(q)` (one-argument form): round half to even. -/
def pyRound (q : ℚ) : ℤ :=
  let f := ⌊q⌋
  let r := q - f
  if r < 1 / 2 then f
  else if 1 / 2 < r then f + 1
  else if f % 2 = 0 then f else f + 1

/-- Python `round(q, n)`: round half to even at `n` decimal digits. -/
def pyRoundTo (n : ℕ) (q : ℚ) : ℚ :=
  (pyRound (q * 10 ^ n) : ℚ) / 10 ^ n

/-- Square-root interpretation used by concrete witnesses and
counterexamples.  It returns the exact real square root on every argument
that the concrete witness computations below produce (each of them is the
square of a rational), it is nonnegative everywhere and sends `0` to `0`,
so it satisfies every hypothesis the universal theorems place on the
abstract square root. -/
def sqrt_w (q : ℚ) : ℚ :=
  if q = 9 / 25000000 then 3 / 5000
  else if q = 1 / 25 then 1 / 5
  else 0

/-- `calculate_distance` (identical in `scoring.py`, `feature_extraction.py`
and `connection.py`): Euclidean distance of two landmarks in the x/y plane,
with the square root kept abstract as `s`. -/
def calculate_distance (s : ℚ → ℚ) (p1 p2 : Point) : ℚ :=
  s ((p1.x - p2.x) * (p1.x - p2.x) + (p1.y - p2.y) * (p1.y - p2.y))

/-! ### The male physique scorer (`scoring.py`, `score_male_physique`) -/

/-- One entry of `strong_areas` / `growth_areas`. -/
structure Area where
  name : String
  score : ℤ
  description : String
deriving DecidableEq, Repr

/-- The internal `scores` dict of `score_male_physique` (float values, in
insertion order `shoulders, v_taper, core, symmetry, chest, posture, arms,
overall`). -/
structure ScoresQ where
  shoulders : ℚ
  v_taper : ℚ
  core : ℚ
  symmetry : ℚ
  chest : ℚ
  posture : ℚ
  arms : ℚ
  overall : ℚ
deriving DecidableEq, Repr

/-- The emitted `scores` dict (`{k: int(v)}`). -/
structure ScoresInt where
  shoulders : ℤ
  v_taper : ℤ
  core : ℤ
  symmetry : ℤ
  chest : ℤ
  posture : ℤ
  arms : ℤ
  overall : ℤ
deriving DecidableEq, Repr

/-- Result dict of `score_male_physique`.  `scoresq` is the internal float
`scores` dict retained alongside the emitted integer `scores`, so that the
truncation relation between the two can be stated. -/
structure MaleResult where
  overall_score : ℤ
  scores : ScoresInt
  body_type : String
  body_description : String
  frame : String
  strong_areas : List Area
  growth_areas : List Area
  key_insight : String
  scoresq : ScoresQ
deriving DecidableEq, Repr

/-- Score plus the `strong_areas` / `growth_areas` entries appended while
computing one category. -/
structure CatBlock where
  score : ℚ
  strong : List Area
  growth : List Area
deriving DecidableEq, Repr

/-- Shoulders category (lines 63-92 of `scoring.py`). -/
def shoulders_block (r : ℚ) : CatBlock :=
  if 1.45 ≤ r then
    let sc := min 100 (85 + (r - 1.45) * 50)
    ⟨sc, [⟨"Shoulders", int_trunc sc, "Outstanding shoulder width - exceptional frame"⟩], []⟩
  else if 1.35 ≤ r then
    let sc := 75 + (r - 1.35) * 100
    ⟨sc, [⟨"Shoulders", int_trunc sc, "Excellent shoulder development"⟩], []⟩
  else if 1.25 ≤ r then
    ⟨65 + (r - 1.25) * 100, [], []⟩
  else if 1.15 ≤ r then
    let sc := 55 + (r - 1.15) * 100
    ⟨sc, [], [⟨"Shoulders", int_trunc sc, "Build shoulder width with lateral raises and overhead press"⟩]⟩
  else
    let sc := max 40 (40 + r * 10)
    ⟨sc, [], [⟨"Shoulders", int_trunc sc, "Focus on shoulder width training - high priority"⟩]⟩

/-- V-taper category (lines 99-122). -/
def v_taper_block (r : ℚ) : CatBlock :=
  if 1.8 ≤ r then
    let sc := min 100 (90 + (r - 1.8) * 25)
    ⟨sc, [⟨"V-Taper", int_trunc sc, "Elite V-taper physique - competition level"⟩], []⟩
  else if 1.6 ≤ r then
    let sc := 75 + (r - 1.6) * 75
    ⟨sc, [⟨"V-Taper", int_trunc sc, "Strong shoulder-to-waist ratio"⟩], []⟩
  else if 1.4 ≤ r then
    ⟨60 + (r - 1.4) * 75, [], []⟩
  else
    let sc := max 45 (r * 35)
    ⟨sc, [],
      if sc < 65 then [⟨"V-Taper", int_trunc sc, "Build wider shoulders and tighter core"⟩] else []⟩

/-- Core category (lines 127-149). -/
def core_block (r : ℚ) : CatBlock :=
  if r ≤ 0.55 then
    let sc := min 100 (95 + (0.55 - r) * 100)
    ⟨sc, [⟨"Core", int_trunc sc, "Exceptional core definition and leanness"⟩], []⟩
  else if r ≤ 0.65 then
    let sc := 80 + (0.65 - r) * 150
    ⟨sc, [⟨"Core", int_trunc sc, "Well-defined midsection"⟩], []⟩
  else if r ≤ 0.75 then
    ⟨65 + (0.75 - r) * 150, [], []⟩
  else
    let sc := max 45 (100 - r * 50)
    ⟨sc, [], [⟨"Core", int_trunc sc, "Focus on core training and body fat reduction"⟩]⟩

/-- Symmetry category (lines 161-179). -/
def symmetry_block (t : ℚ) : CatBlock :=
  if t < 0.015 then
    let sc := 95 + (0.015 - t) * 333
    ⟨sc, [⟨"Symmetry", int_trunc sc, "Perfect left-right balance"⟩], []⟩
  else if t < 0.03 then
    ⟨80 + (0.03 - t) * 1000, [], []⟩
  else if t < 0.05 then
    ⟨65 + (0.05 - t) * 750, [], []⟩
  else
    let sc := max 50 (100 - t * 800)
    ⟨sc, [],
      if sc < 70 then [⟨"Symmetry", int_trunc sc, "Include unilateral exercises to balance development"⟩] else []⟩

/-- Chest category (lines 186-202). -/
def chest_block (r : ℚ) : CatBlock :=
  if 0.45 ≤ r then
    let sc := min 100 (85 + (r - 0.45) * 200)
    ⟨sc, [⟨"Chest", int_trunc sc, "Well-developed chest"⟩], []⟩
  else if 0.35 ≤ r then
    ⟨65 + (r - 0.35) * 200, [], []⟩
  else
    let sc := max 50 (r * 180)
    ⟨sc, [],
      if sc < 65 then [⟨"Chest", int_trunc sc, "Build chest size with bench press variations"⟩] else []⟩

/-- Posture category (lines 208-239).  The argument is `some (nose_side,
shoulder_side, hip_side, ankle_side)` when the side landmark list is
nonempty (Python truthiness of `side_landmarks`); `hip_side` is fetched by
the source but never used. -/
def posture_block (so : Option (Point × Point × Point × Point)) : CatBlock :=
  match so with
  | some (nose_side, shoulder_side, _hip_side, ankle_side) =>
    let head_forward := |nose_side.x - shoulder_side.x|
    let vertical_alignment := |shoulder_side.x - ankle_side.x|
    let d := (head_forward * 2 + vertical_alignment) / 3
    if d < 0.08 then
      let sc := 90 + (0.08 - d) * 125
      ⟨sc, [⟨"Posture", int_trunc sc, "Excellent upright posture"⟩], []⟩
    else if d < 0.15 then
      ⟨70 + (0.15 - d) * 285, [], []⟩
    else
      let sc := max 50 (100 - d * 300)
      ⟨sc, [],
        if sc < 70 then [⟨"Posture", int_trunc sc, "Work on posture - include back strengthening exercises"⟩] else []⟩
  | none => ⟨75, [], []⟩

/-- Arms category (lines 242-262). -/
def arms_block (r : ℚ) : CatBlock :=
  let arm_score_base := 100 - |r - 0.5| * 200
  let sc := max 60 (min 85 arm_score_base)
  ⟨sc, [],
    if sc < 75 then [⟨"Arms", int_trunc sc, "Increase arm size with curls and tricep work"⟩] else []⟩

/-- The `scores.items()` list in dict insertion order (line 305-306 iterate
over it). -/
def score_items (sq : ScoresQ) : List (String × ℚ) :=
  [("shoulders", sq.shoulders), ("v_taper", sq.v_taper), ("core", sq.core),
   ("symmetry", sq.symmetry), ("chest", sq.chest), ("posture", sq.posture),
   ("arms", sq.arms), ("overall", sq.overall)]

/-- The key function `lambda x: x[1] if x[0] != 'overall' else 0` used for
both `max` and `min` on lines 305-306. -/
def nkey (p : String × ℚ) : ℚ :=
  if p.1 ≠ "overall" then p.2 else 0

/-- One step of Python `max(iterable, key=f)`: keep the current item unless
the next one is strictly greater. -/
def py_max_step (key : String × ℚ → ℚ) (acc y : String × ℚ) : String × ℚ :=
  if key acc < key y then y else acc

/-- Python `max(iterable, key=f)` (first maximal item wins on ties).  The
scorer only calls it on a nonempty list; the `[]` case is unreachable. -/
def py_max_by (key : String × ℚ → ℚ) : List (String × ℚ) → String × ℚ
  | [] => ("", 0)
  | x :: xs => xs.foldl (py_max_step key) x

/-- One step of Python `min(iterable, key=f)`. -/
def py_min_step (key : String × ℚ → ℚ) (acc y : String × ℚ) : String × ℚ :=
  if key y < key acc then y else acc

/-- Python `min(iterable, key=f)` (first minimal item wins on ties). -/
def py_min_by (key : String × ℚ → ℚ) : List (String × ℚ) → String × ℚ
  | [] => ("", 0)
  | x :: xs => xs.foldl (py_min_step key) x

/-- The `insights_map` dict lookup with its `.get` default (lines 334-354). -/
def insights_map_get (c : String) : String :=
  if c = "shoulders" then "Your shoulders are your greatest strength - they provide an excellent foundation for an impressive physique."
  else if c = "v_taper" then "You have a natural V-taper that many strive for - your shoulder-to-waist ratio is exceptional."
  else if c = "chest" then "Your chest development is strong - continue building on this foundation."
  else if c = "core" then "Your core definition is excellent - this gives you a lean, athletic appearance."
  else if c = "symmetry" then "Your physique shows excellent symmetry - balanced development across both sides."
  else if c = "posture" then "Your posture is outstanding - you carry yourself with confidence and alignment."
  else if c = "arms" then "Your arm proportions are well-balanced with your overall frame."
  else "You have good overall development."

/-- The `growth_map` dict lookup with its `.get` default (lines 344-355). -/
def growth_map_get (c : String) : String :=
  if c = "shoulders" then "Focus on shoulder width training to enhance your frame."
  else if c = "v_taper" then "Build wider shoulders and tighten your core to improve your V-taper."
  else if c = "chest" then "Prioritize chest development to add thickness to your upper body."
  else if c = "core" then "Core strengthening and fat loss will enhance overall definition."
  else if c = "symmetry" then "Include unilateral exercises to balance your development."
  else if c = "posture" then "Work on posture with back strengthening and mobility work."
  else if c = "arms" then "Add dedicated arm work to match your torso development."
  else "Keep working consistently on all muscle groups."

/-- `generate_key_insight` (lines 326-357); `scores` and `body_type` are
taken but never used by the source. -/
def generate_key_insight (top_category bottom_category : String)
    (_scores : List (String × ℚ)) (_body_type : String) : String :=
  insights_map_get top_category ++ " " ++ growth_map_get bottom_category

/-- Stable insertion of `a` into a list sorted by `le` (the element moves
in front of the first entry it is `le`-related to, so earlier elements stay
in front of equal later ones, matching Python's stable `list.sort`). -/
def insert_sorted (le : Area → Area → Bool) (a : Area) : List Area → List Area
  | [] => [a]
  | b :: l => if le a b then a :: b :: l else b :: insert_sorted le a l

/-- Stable insertion sort by `le`. -/
def sort_by (le : Area → Area → Bool) : List Area → List Area
  | [] => []
  | a :: l => insert_sorted le a (sort_by le l)

/-- `strong_areas.sort(key=lambda x: x['score'], reverse=True)`. -/
def sort_area_desc (l : List Area) : List Area :=
  sort_by (fun a b => decide (b.score ≤ a.score)) l

/-- `growth_areas.sort(key=lambda x: x['score'])`. -/
def sort_area_asc (l : List Area) : List Area :=
  sort_by (fun a b => decide (a.score ≤ b.score)) l

/-- Invariant of one category block: a category contributes to at most one
of the two area lists, at most one entry, always under its fixed display
name. -/
def block_inv (b : CatBlock) (n : String) : Prop :=
  (b.strong = [] ∨ b.growth = []) ∧
  (∀ a ∈ b.strong, a.name = n) ∧ (∀ a ∈ b.growth, a.name = n) ∧
  b.strong.length ≤ 1 ∧ b.growth.length ≤ 1

/-- The body of `score_male_physique` after all landmark fetches succeeded:
`lsh rsh lhip rhip nose lwrist lankle` are front landmarks 11, 12, 23, 24,
0, 15, 27, and `so` is `some` of side landmarks 0, 11, 23, 27 when the side
list is nonempty. -/
def score_male_core (s : ℚ → ℚ) (lsh rsh lhip rhip nose lwrist lankle : Point)
    (so : Option (Point × Point × Point × Point)) : MaleResult :=
  let shoulder_width := calculate_distance s lsh rsh
  let hip_width := calculate_distance s lhip rhip
  let shoulder_hip_ratio := if 0 < hip_width then shoulder_width / hip_width else 1
  let bsh := shoulders_block shoulder_hip_ratio
  let waist_width := hip_width * 0.75
  let v_taper_ratio := if 0 < waist_width then shoulder_width / waist_width else 1
  let bvt := v_taper_block v_taper_ratio
  let waist_shoulder_ratio := if 0 < shoulder_width then waist_width / shoulder_width else 1
  let bco := core_block waist_shoulder_ratio
  let shoulder_imbalance := |lsh.y - rsh.y|
  let hip_imbalance := |lhip.y - rhip.y|
  let total_imbalance := (shoulder_imbalance + hip_imbalance) / 2
  let bsy := symmetry_block total_imbalance
  let chest_width_estimate := shoulder_width * 0.85
  let torso_height := calculate_distance s nose lhip
  let chest_torso_ratio := if 0 < torso_height then chest_width_estimate / torso_height else 1
  let bch := chest_block chest_torso_ratio
  let bpo := posture_block so
  let arm_length := calculate_distance s lsh lwrist
  let leg_length := calculate_distance s lhip lankle
  let arm_leg_ratio := if 0 < leg_length then arm_length / leg_length else 1
  let bar := arms_block arm_leg_ratio
  let overall := bsh.score * 0.20 + bvt.score * 0.18 + bch.score * 0.15 + bco.score * 0.15 +
    bsy.score * 0.12 + bpo.score * 0.10 + bar.score * 0.10
  let bt :=
    if 85 ≤ overall then ("Elite Physique", "Competition-level development")
    else if 75 ≤ overall then ("Athletic", "Strong, well-developed physique")
    else if 65 ≤ overall then ("Above Average", "Good muscle development")
    else if 55 ≤ overall then ("Average", "Solid foundation to build on")
    else ("Beginner", "Great potential for improvement")
  let frame :=
    if 1.4 ≤ shoulder_hip_ratio then "Wide Frame"
    else if 1.25 ≤ shoulder_hip_ratio then "Athletic Frame"
    else if 1.15 ≤ shoulder_hip_ratio then "Medium Frame"
    else "Narrow Frame"
  let sq : ScoresQ := ⟨bsh.score, bvt.score, bco.score, bsy.score, bch.score, bpo.score,
    bar.score, overall⟩
  let top_score_category := (py_max_by nkey (score_items sq)).1
  let bottom_score_category := (py_min_by nkey (score_items sq)).1
  let insight := generate_key_insight top_score_category bottom_score_category
    (score_items sq) bt.1
  let strong_all := bsh.strong ++ bvt.strong ++ bco.strong ++ bsy.strong ++ bch.strong ++
    bpo.strong ++ bar.strong
  let growth_all := bsh.growth ++ bvt.growth ++ bco.growth ++ bsy.growth ++ bch.growth ++
    bpo.growth ++ bar.growth
  { overall_score := int_trunc overall
    scores := ⟨int_trunc sq.shoulders, int_trunc sq.v_taper, int_trunc sq.core,
      int_trunc sq.symmetry, int_trunc sq.chest, int_trunc sq.posture, int_trunc sq.arms,
      int_trunc overall⟩
    body_type := bt.1
    body_description := bt.2
    frame := frame
    strong_areas := (sort_area_desc strong_all).take 3
    growth_areas := (sort_area_asc growth_all).take 3
    key_insight := insight
    scoresq := sq }

/-- `score_male_physique`: fetches the front landmarks it reads (indices
11, 12, 23, 24, 0, 15, 27) and, when the side list is nonempty, side
landmarks 0, 11, 23, 27; a missing index models the Python IndexError as
`none`. -/
def score_male_physique (s : ℚ → ℚ) (front_landmarks side_landmarks : List Point) :
    Option MaleResult := do
  let lsh ← front_landmarks[11]?
  let rsh ← front_landmarks[12]?
  let lhip ← front_landmarks[23]?
  let rhip ← front_landmarks[24]?
  let nose ← front_landmarks[0]?
  let lwrist ← front_landmarks[15]?
  let lankle ← front_landmarks[27]?
  match side_landmarks with
  | [] => pure (score_male_core s lsh rsh lhip rhip nose lwrist lankle none)
  | _ :: _ => do
    let nose_side ← side_landmarks[0]?
    let shoulder_side ← side_landmarks[11]?
    let hip_side ← side_landmarks[23]?
    let ankle_side ← side_landmarks[27]?
    pure (score_male_core s lsh rsh lhip rhip nose lwrist lankle
      (some (nose_side, shoulder_side, hip_side, ankle_side)))

/-- The full result of `score_male_physique sqrt_w front_a side_a`,
computed by hand and certified by `score_eval_a` below.  On this input the
hip width is 0, so the scorer's ratio fallbacks fire (shoulders 50,
v_taper 45, arms 60), the zero waist makes core 100, the degenerate torso
makes chest 100, the small shoulder tilt gives symmetry 99.8951 and the
slight nose offset gives posture 99.5. -/
def result_a : MaleResult :=
  { overall_score := 76
    scores := ⟨50, 45, 100, 99, 100, 99, 60, 76⟩
    body_type := "Athletic"
    body_description := "Strong, well-developed physique"
    frame := "Narrow Frame"
    strong_areas :=
      [⟨"Core", 100, "Exceptional core definition and leanness"⟩,
       ⟨"Chest", 100, "Well-developed chest"⟩,
       ⟨"Symmetry", 99, "Perfect left-right balance"⟩]
    growth_areas :=
      [⟨"V-Taper", 45, "Build wider shoulders and tighter core"⟩,
       ⟨"Shoulders", 50, "Focus on shoulder width training - high priority"⟩,
       ⟨"Arms", 60, "Increase arm size with curls and tricep work"⟩]
    key_insight := "Your core definition is excellent - this gives you a lean, athletic appearance. Keep working consistently on all muscle groups."
    scoresq := ⟨50, 45, 100, 998951 / 10000, 100, 199 / 2, 60, 19009353 / 250000⟩ }

/-! ### Placeholder scorers and the scan store (`scoring.py` lines 360-373,
`connection.py` `save_scan`, `api/physique.py` request path) -/

/-- The physique-analysis dict as consumed by `save_scan`.  Python passes an
untyped dict whose keys differ between the male scorer and the placeholder
scorers, so every key that `save_scan` reads is modelled as optional:
`none` means the key is absent from the dict. -/
structure PhysiqueOut where
  overall_score : Option ℤ
  scores : Option ScoresInt
  body_type : Option String
  frame : Option String
  strong_areas : Option (List Area)
  growth_areas : Option (List Area)
  key_insight : Option String
  message : Option String
deriving DecidableEq, Repr

/-- `score_female_physique` (`scoring.py` lines 360-365): fixed placeholder
dict `{overall_score: 0, message: "Female physique analysis coming soon!"}`,
independent of the landmarks. -/
def score_female_physique (_front_landmarks _side_landmarks : List Point)
    (_height_cm : Option ℚ) : PhysiqueOut :=
  { overall_score := some 0
    scores := none
    body_type := none
    frame := none
    strong_areas := none
    growth_areas := none
    key_insight := none
    message := some "Female physique analysis coming soon!" }

/-- `score_non_binary_physique` (`scoring.py` lines 368-373). -/
def score_non_binary_physique (_front_landmarks _side_landmarks : List Point)
    (_height_cm : Option ℚ) : PhysiqueOut :=
  { overall_score := some 0
    scores := none
    body_type := none
    frame := none
    strong_areas := none
    growth_areas := none
    key_insight := none
    message := some "Non-binary physique analysis coming soon!" }

/-- The row `save_scan` inserts into the `scans` table (pose payloads and
timestamps omitted: they never fail and carry no logic). -/
structure ScanRow where
  user_id : String
  is_baseline : Bool
  overall_score : ℤ
  scores_json : ScoresInt
  body_type : Option String
  frame : Option String
  strong_areas_json : List Area
  growth_areas_json : List Area
  key_insight : Option String
deriving DecidableEq, Repr

/-- The row construction of `save_scan` (`connection.py` lines 127-170):
`physique_analysis['overall_score']` and `physique_analysis['scores']` are
direct key accesses (KeyError, hence `none`, when absent), the remaining
keys are read with `.get` (defaulting to `None` / `[]`). -/
def save_scan_row (user_id : String) (pa : PhysiqueOut) (is_baseline : Bool) :
    Option ScanRow := do
  let ov ← pa.overall_score
  let sc ← pa.scores
  pure { user_id := user_id
         is_baseline := is_baseline
         overall_score := ov
         scores_json := sc
         body_type := pa.body_type
         frame := pa.frame
         strong_areas_json := pa.strong_areas.getD []
         growth_areas_json := pa.growth_areas.getD []
         key_insight := pa.key_insight }

/-! ### The progression tracker (`connection.py`, `save_progression`) -/

/-- Python `d[k]` on a string-keyed score dict: `none` models KeyError. -/
def dict_get (d : List (String × ℤ)) (k : String) : Option ℤ :=
  (d.find? (fun p => p.1 == k)).map (fun p => p.2)

/-- Python `d.get(k, 0)`. -/
def dict_getD (d : List (String × ℤ)) (k : String) : ℤ :=
  (dict_get d k).getD 0

/-- The row `save_progression` inserts into the `progression` table. -/
structure ProgressionRow where
  user_id : String
  scan_id : ℤ
  days_since_baseline : ℤ
  overall_score_delta : ℤ
  shoulder_score_delta : ℤ
  chest_score_delta : ℤ
  core_score_delta : ℤ
  v_taper_score_delta : ℤ
  symmetry_score_delta : ℤ
  posture_score_delta : ℤ
  arms_score_delta : ℤ
deriving DecidableEq, Repr

/-- `save_progression` (`connection.py` lines 242-283).  The overall delta
reads `current_scores['overall']` by direct indexing (KeyError when the key
is absent, hence `none`); every other read uses `.get(key, 0)`. -/
def save_progression (user_id : String) (scan_id : ℤ)
    (current_scores baseline_scores : List (String × ℤ))
    (days_since_baseline : ℤ) : Option ProgressionRow := do
  let cur_overall ← dict_get current_scores "overall"
  pure { user_id := user_id
         scan_id := scan_id
         days_since_baseline := days_since_baseline
         overall_score_delta := cur_overall - dict_getD baseline_scores "overall"
         shoulder_score_delta :=
           dict_getD current_scores "shoulders" - dict_getD baseline_scores "shoulders"
         chest_score_delta :=
           dict_getD current_scores "chest" - dict_getD baseline_scores "chest"
         core_score_delta :=
           dict_getD current_scores "core" - dict_getD baseline_scores "core"
         v_taper_score_delta :=
           dict_getD current_scores "v_taper" - dict_getD baseline_scores "v_taper"
         symmetry_score_delta :=
           dict_getD current_scores "symmetry" - dict_getD baseline_scores "symmetry"
         posture_score_delta :=
           dict_getD current_scores "posture" - dict_getD baseline_scores "posture"
         arms_score_delta :=
           dict_getD current_scores "arms" - dict_getD baseline_scores "arms" }

/-! ### The feature extractor (`feature_extraction.py`) -/

/-- `features['raw_measurements']` (values rounded to 4 digits). -/
structure RawMeas where
  shoulder_width : ℚ
  hip_width : ℚ
  torso_length : ℚ
  leg_length : ℚ
  body_height : ℚ
deriving DecidableEq, Repr

/-- `features['ratios']` (values rounded to 3 digits). -/
structure FeatRatios where
  shoulder_hip_ratio : ℚ
  shoulder_waist_ratio : ℚ
  torso_leg_ratio : ℚ
  symmetry : ℚ
deriving DecidableEq, Repr

/-- `features['scores']` (Python `round` produces ints). -/
structure FeatScores where
  vtaper : ℤ
  symmetry : ℤ
  posture : ℤ
  overall : ℤ
deriving DecidableEq, Repr

/-- One entry of `features['focus_areas']`. -/
structure FocusArea where
  area : String
  priority : String
  recommendation : String
deriving DecidableEq, Repr

/-- The `features` dict.  `raw_measurements` and `ratios` are `none` when
they are still the initial empty dicts (which is exactly the state the
error path leaves them in, since every raising operation precedes their
assignment). -/
structure Features where
  raw_measurements : Option RawMeas
  ratios : Option FeatRatios
  scores : FeatScores
  insights : List String
  focus_areas : List FocusArea
deriving DecidableEq, Repr

/-- `calculate_posture_score` (`feature_extraction.py` lines 262-284): its
own try/except returns the default 70 when any side landmark access fails
(the knee and ankle landmarks are fetched but unused). -/
def calculate_posture_score (side_pose : List Point) : ℚ :=
  (do
    let ear ← side_pose[7]?
    let shoulder ← side_pose[11]?
    let hip ← side_pose[23]?
    let _knee ← side_pose[25]?
    let _ankle ← side_pose[27]?
    pure (max (0 : ℚ) (min 100 (100 - (|ear.x - shoulder.x| + |shoulder.x - hip.x|) * 200)))).getD 70

/-- The body of `extract_body_features`'s `try` block after all front
landmark fetches succeeded (lines 86-250). -/
def extract_core (s : ℚ → ℚ)
    (left_shoulder right_shoulder left_hip right_hip : Point)
    (_left_knee _right_knee left_ankle right_ankle nose left_wrist right_wrist : Point)
    (side_pose : List Point) (gender : String) : Features :=
  let shoulder_width := calculate_distance s left_shoulder right_shoulder
  let hip_width := calculate_distance s left_hip right_hip
  let torso_length := (calculate_distance s left_shoulder left_hip +
    calculate_distance s right_shoulder right_hip) / 2
  let leg_length := (calculate_distance s left_hip left_ankle +
    calculate_distance s right_hip right_ankle) / 2
  let ankle_midpoint : Point :=
    ⟨(left_ankle.x + right_ankle.x) / 2, (left_ankle.y + right_ankle.y) / 2⟩
  let body_height := calculate_distance s nose ankle_midpoint
  let raw : RawMeas := ⟨pyRoundTo 4 shoulder_width, pyRoundTo 4 hip_width,
    pyRoundTo 4 torso_length, pyRoundTo 4 leg_length, pyRoundTo 4 body_height⟩
  let shoulder_hip_ratio := if 0 < hip_width then shoulder_width / hip_width else 0
  let waist_width := hip_width * 0.85
  let shoulder_waist_ratio := if 0 < waist_width then shoulder_width / waist_width else 0
  let torso_leg_ratio := if 0 < leg_length then torso_length / leg_length else 0
  let left_arm_length := calculate_distance s left_shoulder left_wrist
  let right_arm_length := calculate_distance s right_shoulder right_wrist
  let symmetry := 1 - |left_arm_length - right_arm_length| /
    max left_arm_length (max right_arm_length 0.001)
  let ratios : FeatRatios := ⟨pyRoundTo 3 shoulder_hip_ratio, pyRoundTo 3 shoulder_waist_ratio,
    pyRoundTo 3 torso_leg_ratio, pyRoundTo 3 symmetry⟩
  let ideal_shr : ℚ := if gender = "male" then 1.6 else 1.4
  let vtaper_score := max 0 (min 100 (100 - |shoulder_hip_ratio - ideal_shr| * 50))
  let symmetry_score := symmetry * 100
  let posture_score := calculate_posture_score side_pose
  let overall_score := vtaper_score * 0.35 + symmetry_score * 0.25 + posture_score * 0.40
  let scores : FeatScores := ⟨pyRound vtaper_score, pyRound symmetry_score,
    pyRound posture_score, pyRound overall_score⟩
  let insights :=
    [if 80 ≤ vtaper_score then "Excellent shoulder-to-hip ratio indicating good V-taper"
     else if 60 ≤ vtaper_score then "Good foundation for V-taper, can be improved with shoulder/lat work"
     else "V-taper needs development - focus on shoulder width and waist reduction",
     if 90 ≤ symmetry_score then "Excellent left-right body symmetry"
     else if 75 ≤ symmetry_score then "Good symmetry with minor imbalances to address"
     else "Noticeable asymmetry - incorporate unilateral exercises",
     if 80 ≤ posture_score then "Good posture alignment"
     else if 60 ≤ posture_score then "Some postural issues - focus on core and back strengthening"
     else "Significant posture concerns - prioritize corrective exercises"]
  let focus_areas :=
    (if vtaper_score < 70 then
      [⟨"shoulders", if vtaper_score < 50 then "high" else "medium",
        "Lateral raises, overhead press, face pulls"⟩,
       ⟨"lats", if vtaper_score < 50 then "high" else "medium",
        "Pull-ups, lat pulldowns, rows"⟩]
     else []) ++
    (if symmetry_score < 85 then
      [⟨"symmetry", "medium", "Unilateral dumbbell exercises, single-leg work"⟩]
     else []) ++
    (if posture_score < 70 then
      [⟨"posture", if posture_score < 50 then "high" else "medium",
        "Core work, back extensions, stretching"⟩]
     else []) ++
    (if gender = "male" then
      [⟨"chest", "medium", "Bench press variations, push-ups, flyes"⟩,
       ⟨"arms", "low", "Compound movements + isolation work"⟩]
     else
      [⟨"glutes", "medium", "Hip thrusts, squats, lunges"⟩,
       ⟨"core", "medium", "Planks, dead bugs, ab work"⟩])
  { raw_measurements := some raw
    ratios := some ratios
    scores := scores
    insights := insights
    focus_areas := focus_areas }

/-- The `try` block of `extract_body_features`: the front landmark fetches
of lines 76-84 and 130-137 (knees are fetched but unused; the only raising
operations in the whole `try` block are these index accesses). -/
def extract_try (s : ℚ → ℚ) (front_pose side_pose : List Point) (gender : String) :
    Option Features := do
  let left_shoulder ← front_pose[11]?
  let right_shoulder ← front_pose[12]?
  let left_hip ← front_pose[23]?
  let right_hip ← front_pose[24]?
  let left_knee ← front_pose[25]?
  let right_knee ← front_pose[26]?
  let left_ankle ← front_pose[27]?
  let right_ankle ← front_pose[28]?
  let nose ← front_pose[0]?
  let left_wrist ← front_pose[15]?
  let right_wrist ← front_pose[16]?
  pure (extract_core s left_shoulder right_shoulder left_hip right_hip left_knee right_knee
    left_ankle right_ankle nose left_wrist right_wrist side_pose gender)

/-- The default feature bundle substituted by the `except` branch (lines
252-257): scores `overall=70, vtaper=70, symmetry=80, posture=70`, one
generic insight, one generic focus area, raw measurements and ratios left
as the initial empty dicts. -/
def default_features : Features :=
  { raw_measurements := none
    ratios := none
    scores := { vtaper := 70, symmetry := 80, posture := 70, overall := 70 }
    insights := ["Unable to fully analyze - using baseline assessment"]
    focus_areas := [⟨"general fitness", "medium", "Full body training"⟩] }

/-- `extract_body_features` (lines 56-259): the whole `try` body with the
`except` branch substituting the fixed default feature set. -/
def extract_body_features (s : ℚ → ℚ) (front_pose side_pose : List Point)
    (gender : String) : Features :=
  match extract_try s front_pose side_pose gender with
  | some f => f
  | none => default_features

/-! ### The legacy body-composition analyzer (`body_analysis.py`) -/

/-- `estimate_bmi` (lines 16-28): `18 + (waist/shoulder - 0.6) * 15`.  The
caller guards against `shoulder_width = 0` (Python would raise
ZeroDivisionError there). -/
def estimate_bmi (waist_width shoulder_width : ℚ) : ℚ :=
  18 + (waist_width / shoulder_width - 0.6) * 15

/-- Shoulder width measurement of `analyze_body` (landmarks 11-12, scaled
by 200); total via `getD`, used only under the length-33 guard. -/
def shoulder_width_ab (s : ℚ → ℚ) (landmarks : List Point) : ℚ :=
  calculate_distance s (landmarks.getD 11 ⟨0, 0⟩) (landmarks.getD 12 ⟨0, 0⟩) * 200

/-- Hip width measurement of `analyze_body` (landmarks 23-24). -/
def hip_width_ab (s : ℚ → ℚ) (landmarks : List Point) : ℚ :=
  calculate_distance s (landmarks.getD 23 ⟨0, 0⟩) (landmarks.getD 24 ⟨0, 0⟩) * 200

/-- Arm length measurement of `analyze_body` (landmarks 11, 15). -/
def arm_length_ab (s : ℚ → ℚ) (landmarks : List Point) : ℚ :=
  calculate_distance s (landmarks.getD 11 ⟨0, 0⟩) (landmarks.getD 15 ⟨0, 0⟩) * 200

/-- Leg length measurement of `analyze_body` (landmarks 23, 27). -/
def leg_length_ab (s : ℚ → ℚ) (landmarks : List Point) : ℚ :=
  calculate_distance s (landmarks.getD 23 ⟨0, 0⟩) (landmarks.getD 27 ⟨0, 0⟩) * 200

/-- Upper body height measurement of `analyze_body` (landmarks 0, 23). -/
def upper_body_height_ab (s : ℚ → ℚ) (landmarks : List Point) : ℚ :=
  calculate_distance s (landmarks.getD 0 ⟨0, 0⟩) (landmarks.getD 23 ⟨0, 0⟩) * 200

/-- The `measurements` dict of `analyze_body` (values rounded to 1 digit). -/
structure Measurements where
  shoulderWidth : ℚ
  chestWidth : ℚ
  waistWidth : ℚ
  hipWidth : ℚ
  armLength : ℚ
  legLength : ℚ
deriving DecidableEq, Repr

/-- Result dict of `analyze_body`. -/
structure BodyAnalysis where
  measurements : Measurements
  strongSpots : List String
  weakSpots : List String
  bodyFatEstimate : ℚ
  muscleMassEstimate : ℚ
deriving DecidableEq, Repr

/-- The body of `analyze_body` on an accepted landmark set (all guards
passed). -/
def analyze_body_core (s : ℚ → ℚ) (landmarks : List Point) : BodyAnalysis :=
  let shoulder_width := shoulder_width_ab s landmarks
    let hip_width := hip_width_ab s landmarks
    let arm_length := arm_length_ab s landmarks
    let leg_length := leg_length_ab s landmarks
    let chest_width := shoulder_width * 0.85
    let waist_width := hip_width * 0.75
    let shoulder_hip_ratio := if 0 < hip_width then shoulder_width / hip_width else 1
    let arm_to_leg_ratio := if 0 < leg_length then arm_length / leg_length else 1
    let upper_body_height := upper_body_height_ab s landmarks
    let lower_body_height := leg_length
    let _torso_leg_ratio :=
      if 0 < lower_body_height then upper_body_height / lower_body_height else 1
    let left_right_shoulder_diff :=
      |(landmarks.getD 11 ⟨0, 0⟩).y - (landmarks.getD 12 ⟨0, 0⟩).y|
    let left_right_hip_diff :=
      |(landmarks.getD 23 ⟨0, 0⟩).y - (landmarks.getD 24 ⟨0, 0⟩).y|
    let strong_spots :=
      (if 45 < shoulder_width then ["Broad shoulders - excellent upper body frame"] else []) ++
      (if waist_width < 35 then ["Lean waist - good core definition"] else []) ++
      (if 1.2 < shoulder_hip_ratio then ["V-taper physique - excellent shoulder-to-hip ratio"] else []) ++
      (if 0.45 < arm_to_leg_ratio ∧ arm_to_leg_ratio < 0.55 then ["Balanced arm-to-leg proportions"] else []) ++
      (if left_right_shoulder_diff < 0.02 then ["Excellent shoulder symmetry"] else []) ++
      (if left_right_hip_diff < 0.02 then ["Good hip alignment"] else [])
    let weak_spots :=
      (if ¬45 < shoulder_width then ["Narrow shoulders - focus on shoulder width training"] else []) ++
      (if ¬waist_width < 35 ∧ 40 < waist_width then ["Wider waist - prioritize core strengthening and fat loss"] else []) ++
      (if ¬1.2 < shoulder_hip_ratio ∧ shoulder_hip_ratio < 1.0 then ["Hip-dominant frame - focus on shoulder and back development"] else []) ++
      (if ¬(0.45 < arm_to_leg_ratio ∧ arm_to_leg_ratio < 0.55) then
        (if arm_to_leg_ratio < 0.4 then ["Shorter arms relative to legs - emphasize arm training"]
         else ["Longer arms relative to legs - focus on leg development"])
       else []) ++
      (if ¬left_right_shoulder_diff < 0.02 then ["Shoulder asymmetry detected - focus on unilateral training"] else []) ++
      (if ¬left_right_hip_diff < 0.02 then ["Hip imbalance - include corrective exercises"] else [])
    let bmi_estimate := estimate_bmi waist_width shoulder_width
    let body_fat_estimate := max 8 (min 25 (bmi_estimate * 0.8))
    let muscle_mass_estimate := 100 - body_fat_estimate
    { measurements := ⟨pyRoundTo 1 shoulder_width, pyRoundTo 1 chest_width,
        pyRoundTo 1 waist_width, pyRoundTo 1 hip_width, pyRoundTo 1 arm_length,
        pyRoundTo 1 leg_length⟩
      strongSpots := strong_spots
      weakSpots := weak_spots
      bodyFatEstimate := pyRoundTo 1 body_fat_estimate
      muscleMassEstimate := pyRoundTo 1 muscle_mass_estimate }

/-- `analyze_body` (`body_analysis.py` lines 31-134).  `none` models the
ValueError on fewer than 33 landmarks and the ZeroDivisionError inside
`estimate_bmi` when `shoulder_width` is zero (the zero check is hoisted in
front of the otherwise effect-free measurement lets; every other ratio is
guarded in the source, so these are the only two raising points and the
observable result is unchanged). -/
def analyze_body (s : ℚ → ℚ) (landmarks : List Point) : Option BodyAnalysis :=
  if landmarks.length < 33 then none
  else if shoulder_width_ab s landmarks = 0 then none
  else some (analyze_body_core s landmarks)

/-! ### Concrete landmark lists used by witnesses and counterexamples -/

/-- The all-zero landmark. -/
def zp : Point := ⟨0, 0⟩

/-- A valid 33-landmark front list: landmark 11 (left shoulder) is
`(0, 0.0006)` (`0.0006 = 3/5000`), all others are the origin. -/
def front_a : List Point :=
  [zp, zp, zp, zp, zp, zp, zp, zp, zp, zp, zp,
   ⟨0, 3 / 5000⟩,
   zp, zp, zp, zp, zp, zp, zp, zp, zp, zp, zp, zp, zp, zp, zp, zp, zp, zp, zp, zp, zp]

/-- A valid 33-landmark side list: landmark 0 (nose) is `(0.006, 0)`
(`0.006 = 3/500`), all others are the origin. -/
def side_a : List Point :=
  [⟨3 / 500, 0⟩,
   zp, zp, zp, zp, zp, zp, zp, zp, zp, zp, zp, zp, zp, zp, zp, zp, zp, zp, zp, zp, zp,
   zp, zp, zp, zp, zp, zp, zp, zp, zp, zp, zp]

/-- A 33-landmark list for the legacy analyzer: landmark 12 (right
shoulder) and landmark 24 (right hip) are `(0.2, 0)`, all others the
origin, so shoulder width and hip width are both `0.2 * 200 = 40`. -/
def lm_b : List Point :=
  [zp, zp, zp, zp, zp, zp, zp, zp, zp, zp, zp, zp,
   ⟨1 / 5, 0⟩,
   zp, zp, zp, zp, zp, zp, zp, zp, zp, zp, zp,
   ⟨1 / 5, 0⟩,
   zp, zp, zp, zp, zp, zp, zp, zp]


/-! ## Theorems -/

theorem sqrt_w_nonneg : ∀ x : ℚ, 0 ≤ x → 0 ≤ sqrt_w x := by
  intro x _
  unfold sqrt_w
  split_ifs <;> norm_num

theorem sqrt_w_zero : sqrt_w 0 = 0 := by
  unfold sqrt_w
  norm_num

theorem calculate_distance_nonneg {s : ℚ → ℚ}
    (hs : ∀ x : ℚ, 0 ≤ x → 0 ≤ s x) (p1 p2 : Point) :
    0 ≤ calculate_distance s p1 p2 := by
  exact hs _ (add_nonneg (mul_self_nonneg _) (mul_self_nonneg _))

/-! ### Arithmetic helper lemmas -/

theorem int_trunc_nonneg {q : ℚ} (h : 0 ≤ q) : 0 ≤ int_trunc q := by
  unfold int_trunc
  rw [if_neg (not_lt.mpr h)]
  exact Int.le_floor.mpr (by exact_mod_cast h)

theorem int_trunc_le_100 {q : ℚ} (h : q ≤ 100) : int_trunc q ≤ 100 := by
  unfold int_trunc
  split_ifs with h0
  · have : (0:ℤ) ≤ ⌊-q⌋ := Int.le_floor.mpr (by norm_num; linarith)
    omega
  · have : ⌊q⌋ ≤ ⌊(100:ℚ)⌋ := Int.floor_le_floor h
    simpa using this

theorem int_trunc_eq_of {q : ℚ} {z : ℤ} (hq : 0 ≤ q) (hz : (z : ℚ) ≤ q)
    (hz1 : q < z + 1) : int_trunc q = z := by
  unfold int_trunc
  rw [if_neg (not_lt.mpr hq)]
  exact Int.floor_eq_iff.mpr ⟨hz, by exact_mod_cast hz1⟩

theorem pyRound_intCast (z : ℤ) : pyRound (z : ℚ) = z := by
  unfold pyRound
  simp

/-- An `if 0 < y then x / y else 1` ratio with a nonnegative numerator is
nonnegative. -/
theorem ratio_nonneg {x y : ℚ} (hx : 0 ≤ x) : 0 ≤ if 0 < y then x / y else 1 := by
  split_ifs with h
  · exact div_nonneg hx h.le
  · norm_num

/-! ### Per-category score bounds -/

theorem shoulders_block_bounds (r : ℚ) :
    40 ≤ (shoulders_block r).score ∧ (shoulders_block r).score ≤ 100 := by
  unfold shoulders_block
  split_ifs with h1 h2 h3 h4 <;> dsimp only <;> push_neg at *
  · exact ⟨le_min (by norm_num) (by nlinarith), min_le_left _ _⟩
  · constructor <;> nlinarith
  · constructor <;> nlinarith
  · constructor <;> nlinarith
  · exact ⟨le_max_left _ _, max_le (by norm_num) (by nlinarith)⟩

theorem v_taper_block_bounds (r : ℚ) :
    45 ≤ (v_taper_block r).score ∧ (v_taper_block r).score ≤ 100 := by
  unfold v_taper_block
  split_ifs with h1 h2 h3 <;> dsimp only <;> push_neg at *
  · exact ⟨le_min (by norm_num) (by nlinarith), min_le_left _ _⟩
  · constructor <;> nlinarith
  · constructor <;> nlinarith
  · exact ⟨le_max_left _ _, max_le (by norm_num) (by nlinarith)⟩

theorem core_block_bounds (r : ℚ) :
    45 ≤ (core_block r).score ∧ (core_block r).score ≤ 100 := by
  unfold core_block
  split_ifs with h1 h2 h3 <;> dsimp only <;> push_neg at *
  · exact ⟨le_min (by norm_num) (by nlinarith), min_le_left _ _⟩
  · constructor <;> nlinarith
  · constructor <;> nlinarith
  · exact ⟨le_max_left _ _, max_le (by norm_num) (by nlinarith)⟩

theorem symmetry_block_bounds {t : ℚ} (ht : 0 ≤ t) :
    50 ≤ (symmetry_block t).score ∧ (symmetry_block t).score ≤ 100 := by
  unfold symmetry_block
  split_ifs with h1 h2 h3 <;> dsimp only <;> push_neg at *
  · constructor <;> nlinarith
  · constructor <;> nlinarith
  · constructor <;> nlinarith
  · exact ⟨le_max_left _ _, max_le (by norm_num) (by nlinarith)⟩

theorem chest_block_bounds (r : ℚ) :
    50 ≤ (chest_block r).score ∧ (chest_block r).score ≤ 100 := by
  unfold chest_block
  split_ifs with h1 h2 <;> dsimp only <;> push_neg at *
  · exact ⟨le_min (by norm_num) (by nlinarith), min_le_left _ _⟩
  · constructor <;> nlinarith
  · exact ⟨le_max_left _ _, max_le (by norm_num) (by nlinarith)⟩

theorem posture_block_bounds (so : Option (Point × Point × Point × Point)) :
    50 ≤ (posture_block so).score ∧ (posture_block so).score ≤ 100 := by
  unfold posture_block
  match so with
  | none => norm_num
  | some (ns, ss, hp, ak) =>
    have h1 : 0 ≤ |ns.x - ss.x| := abs_nonneg _
    have h2 : 0 ≤ |ss.x - ak.x| := abs_nonneg _
    dsimp only
    split_ifs with hd1 hd2 hd3
    · constructor <;> nlinarith
    · constructor <;> nlinarith
    · push_neg at hd1 hd2
      exact ⟨le_max_left _ _, max_le (by norm_num) (by nlinarith)⟩
    · push_neg at hd1 hd2
      exact ⟨le_max_left _ _, max_le (by norm_num) (by nlinarith)⟩

theorem arms_block_bounds (r : ℚ) :
    60 ≤ (arms_block r).score ∧ (arms_block r).score ≤ 85 := by
  unfold arms_block
  dsimp only
  constructor
  · exact le_max_left _ _
  · exact max_le (by norm_num) (min_le_left _ _)

/-- Upper and lower bounds for the weighted overall score from the
per-category bounds (the weights sum to exactly 1). -/
theorem overall_bounds {a b c d e f g : ℚ}
    (ha : 40 ≤ a ∧ a ≤ 100) (hb : 45 ≤ b ∧ b ≤ 100) (hc : 50 ≤ c ∧ c ≤ 100)
    (hd : 45 ≤ d ∧ d ≤ 100) (he : 50 ≤ e ∧ e ≤ 100) (hf : 50 ≤ f ∧ f ≤ 100)
    (hg : 60 ≤ g ∧ g ≤ 85) :
    0 ≤ a * 0.20 + b * 0.18 + c * 0.15 + d * 0.15 + e * 0.12 + f * 0.10 + g * 0.10 ∧
      a * 0.20 + b * 0.18 + c * 0.15 + d * 0.15 + e * 0.12 + f * 0.10 + g * 0.10 ≤ 100 := by
  obtain ⟨ha1, ha2⟩ := ha
  obtain ⟨hb1, hb2⟩ := hb
  obtain ⟨hc1, hc2⟩ := hc
  obtain ⟨hd1, hd2⟩ := hd
  obtain ⟨he1, he2⟩ := he
  obtain ⟨hf1, hf2⟩ := hf
  obtain ⟨hg1, hg2⟩ := hg
  constructor <;> nlinarith

/-! ### Per-category `strong_areas` / `growth_areas` structure -/

theorem shoulders_block_areas (r : ℚ) : block_inv (shoulders_block r) "Shoulders" := by
  unfold block_inv shoulders_block
  split_ifs <;> simp

theorem v_taper_block_areas (r : ℚ) : block_inv (v_taper_block r) "V-Taper" := by
  unfold block_inv v_taper_block
  dsimp only
  split_ifs <;> simp

theorem core_block_areas (r : ℚ) : block_inv (core_block r) "Core" := by
  unfold block_inv core_block
  split_ifs <;> simp

theorem symmetry_block_areas (t : ℚ) : block_inv (symmetry_block t) "Symmetry" := by
  unfold block_inv symmetry_block
  dsimp only
  split_ifs <;> simp

theorem chest_block_areas (r : ℚ) : block_inv (chest_block r) "Chest" := by
  unfold block_inv chest_block
  dsimp only
  split_ifs <;> simp

theorem posture_block_areas (so : Option (Point × Point × Point × Point)) :
    block_inv (posture_block so) "Posture" := by
  unfold block_inv posture_block
  match so with
  | none => simp
  | some (ns, ss, hp, ak) =>
    dsimp only
    split_ifs <;> simp

theorem arms_block_areas (r : ℚ) : block_inv (arms_block r) "Arms" := by
  unfold block_inv arms_block
  dsimp only
  split_ifs <;> simp

/-! ### Sorting lemmas for the stable insertion sort -/

theorem insert_sorted_perm (le : Area → Area → Bool) (a : Area) (l : List Area) :
    (insert_sorted le a l).Perm (a :: l) := by
  induction l with
  | nil => exact List.Perm.refl _
  | cons b t ih =>
    unfold insert_sorted
    split_ifs
    · exact List.Perm.refl _
    · exact (List.Perm.cons b ih).trans (List.Perm.swap a b t)

theorem sort_by_perm (le : Area → Area → Bool) (l : List Area) :
    (sort_by le l).Perm l := by
  induction l with
  | nil => exact List.Perm.refl _
  | cons a t ih =>
    unfold sort_by
    exact (insert_sorted_perm le a (sort_by le t)).trans (List.Perm.cons a ih)

theorem insert_sorted_pairwise (le : Area → Area → Bool)
    (htot : ∀ a b, le a b = true ∨ le b a = true)
    (htrans : ∀ a b c, le a b = true → le b c = true → le a c = true)
    (a : Area) (l : List Area) (hl : l.Pairwise (fun x y => le x y = true)) :
    (insert_sorted le a l).Pairwise (fun x y => le x y = true) := by
  induction l with
  | nil => simp [insert_sorted]
  | cons b t ih =>
    rw [List.pairwise_cons] at hl
    obtain ⟨hbt, htp⟩ := hl
    unfold insert_sorted
    split_ifs with hab
    · refine List.pairwise_cons.mpr ⟨?_, List.pairwise_cons.mpr ⟨hbt, htp⟩⟩
      intro x hx
      rcases List.mem_cons.mp hx with rfl | hx
      · exact hab
      · exact htrans a b x hab (hbt x hx)
    · refine List.pairwise_cons.mpr ⟨?_, ih htp⟩
      intro x hx
      rcases List.mem_cons.mp ((insert_sorted_perm le a t).mem_iff.mp hx) with rfl | h
      · rcases htot x b with h' | h'
        · exact absurd h' hab
        · exact h'
      · exact hbt x h

theorem sort_by_pairwise (le : Area → Area → Bool)
    (htot : ∀ a b, le a b = true ∨ le b a = true)
    (htrans : ∀ a b c, le a b = true → le b c = true → le a c = true)
    (l : List Area) : (sort_by le l).Pairwise (fun x y => le x y = true) := by
  induction l with
  | nil => simp [sort_by]
  | cons a t ih =>
    unfold sort_by
    exact insert_sorted_pairwise le htot htrans a _ ih

theorem sort_area_desc_sorted (l : List Area) :
    (sort_area_desc l).Pairwise (fun x y : Area => y.score ≤ x.score) := by
  have h := sort_by_pairwise (fun a b => decide (b.score ≤ a.score))
    (fun a b => by rcases le_total b.score a.score with h | h <;> simp [h])
    (fun a b c h1 h2 => by
      simp only [decide_eq_true_eq] at h1 h2 ⊢
      exact le_trans h2 h1) l
  exact h.imp (fun h => of_decide_eq_true h)

theorem sort_area_asc_sorted (l : List Area) :
    (sort_area_asc l).Pairwise (fun x y : Area => x.score ≤ y.score) := by
  have h := sort_by_pairwise (fun a b => decide (a.score ≤ b.score))
    (fun a b => by rcases le_total a.score b.score with h | h <;> simp [h])
    (fun a b c h1 h2 => by
      simp only [decide_eq_true_eq] at h1 h2 ⊢
      exact le_trans h1 h2) l
  exact h.imp (fun h => of_decide_eq_true h)

theorem mem_sort_area_desc {a : Area} {l : List Area} (h : a ∈ sort_area_desc l) : a ∈ l :=
  (sort_by_perm _ l).mem_iff.mp h

theorem mem_sort_area_asc {a : Area} {l : List Area} (h : a ∈ sort_area_asc l) : a ∈ l :=
  (sort_by_perm _ l).mem_iff.mp h

/-! ### Python `min`/`max` with the `overall`-zeroing key -/

theorem foldl_py_min_pos (key : String × ℚ → ℚ) (l : List (String × ℚ)) :
    ∀ acc, 0 < key acc → (∀ y ∈ l, 0 < key y) →
      0 < key (l.foldl (py_min_step key) acc) := by
  induction l with
  | nil => intro acc hacc _; exact hacc
  | cons y t ih =>
    intro acc hacc hl
    rw [List.foldl_cons]
    refine ih (py_min_step key acc y) ?_ (fun z hz => hl z (List.mem_cons_of_mem y hz))
    unfold py_min_step
    split_ifs
    · exact hl y (List.mem_cons_self y t)
    · exact hacc

theorem py_min_by_last_zero (key : String × ℚ → ℚ) (x o : String × ℚ)
    (l : List (String × ℚ)) (hx : 0 < key x) (hl : ∀ y ∈ l, 0 < key y)
    (ho : key o = 0) : py_min_by key (x :: (l ++ [o])) = o := by
  have hstep : py_min_by key (x :: (l ++ [o])) = (l ++ [o]).foldl (py_min_step key) x := rfl
  rw [hstep, List.foldl_append]
  have hpos := foldl_py_min_pos key l x hx hl
  simp only [List.foldl_cons, List.foldl_nil, py_min_step, ho]
  rw [if_pos hpos]

/-- On the scorer's items list, Python `min(scores.items(), key=...)` always
returns the `overall` entry, because `overall` is keyed `0` while every
category score is strictly positive. -/
theorem py_min_nkey_items (sq : ScoresQ)
    (h1 : 0 < sq.shoulders) (h2 : 0 < sq.v_taper) (h3 : 0 < sq.core)
    (h4 : 0 < sq.symmetry) (h5 : 0 < sq.chest) (h6 : 0 < sq.posture)
    (h7 : 0 < sq.arms) :
    py_min_by nkey (score_items sq) = ("overall", sq.overall) := by
  have hitems : score_items sq =
      ("shoulders", sq.shoulders) ::
        ([("v_taper", sq.v_taper), ("core", sq.core), ("symmetry", sq.symmetry),
          ("chest", sq.chest), ("posture", sq.posture), ("arms", sq.arms)] ++
          [("overall", sq.overall)]) := rfl
  rw [hitems]
  refine py_min_by_last_zero nkey _ _ _ ?_ ?_ ?_
  · simpa [nkey] using h1
  · intro y hy
    simp only [List.mem_cons, List.not_mem_nil, or_false] at hy
    rcases hy with rfl | rfl | rfl | rfl | rfl | rfl <;> simpa [nkey] using by assumption
  · simp [nkey]

/-! ### Wrapper lemmas for `score_male_physique` -/

/-- Any successful run of `score_male_physique` is a run of
`score_male_core` on the fetched landmarks. -/
theorem score_male_physique_eq_some {s : ℚ → ℚ} {front side : List Point}
    {r : MaleResult} (h : score_male_physique s front side = some r) :
    ∃ lsh rsh lhip rhip nose lwrist lankle so,
      r = score_male_core s lsh rsh lhip rhip nose lwrist lankle so := by
  rcases side with _ | ⟨sp, srest⟩ <;>
    simp only [score_male_physique, Option.bind_eq_bind, Option.bind_eq_some,
      Option.pure_def, Option.some.injEq] at h
  · obtain ⟨lsh, -, rsh, -, lhip, -, rhip, -, nose, -, lwrist, -, lankle, -, hr⟩ := h
    exact ⟨lsh, rsh, lhip, rhip, nose, lwrist, lankle, none, hr.symm⟩
  · obtain ⟨lsh, -, rsh, -, lhip, -, rhip, -, nose, -, lwrist, -, lankle, -,
      ns, -, ss, -, hs, -, ak, -, hr⟩ := h
    exact ⟨lsh, rsh, lhip, rhip, nose, lwrist, lankle, some (ns, ss, hs, ak), hr.symm⟩

theorem getElem?_eq_some_getD (l : List Point) (i : ℕ) (h : i < l.length) :
    l[i]? = some (l.getD i zp) := by
  rw [List.getD_eq_getElem?_getD, List.getElem?_eq_getElem h]
  rfl

/-- On a valid 33-landmark front and side input, `score_male_physique`
succeeds and runs `score_male_core` on the indexed landmarks. -/
theorem score_male_physique_eq_of_len (s : ℚ → ℚ) (front side : List Point)
    (hf : front.length = 33) (hside : side.length = 33) :
    score_male_physique s front side =
      some (score_male_core s (front.getD 11 zp) (front.getD 12 zp) (front.getD 23 zp)
        (front.getD 24 zp) (front.getD 0 zp) (front.getD 15 zp) (front.getD 27 zp)
        (some (side.getD 0 zp, side.getD 11 zp, side.getD 23 zp, side.getD 27 zp))) := by
  rcases side with _ | ⟨sp, srest⟩
  · simp at hside
  · unfold score_male_physique
    rw [getElem?_eq_some_getD front 11 (by omega), getElem?_eq_some_getD front 12 (by omega),
      getElem?_eq_some_getD front 23 (by omega), getElem?_eq_some_getD front 24 (by omega),
      getElem?_eq_some_getD front 0 (by omega), getElem?_eq_some_getD front 15 (by omega),
      getElem?_eq_some_getD front 27 (by omega)]
    simp only [Option.bind_eq_bind, Option.some_bind]
    rw [getElem?_eq_some_getD _ 0 (by simp only [List.length_cons] at hside ⊢; omega),
      getElem?_eq_some_getD _ 11 (by simp only [List.length_cons] at hside ⊢; omega),
      getElem?_eq_some_getD _ 23 (by simp only [List.length_cons] at hside ⊢; omega),
      getElem?_eq_some_getD _ 27 (by simp only [List.length_cons] at hside ⊢; omega)]
    simp only [Option.bind_eq_bind, Option.some_bind, Option.pure_def]

/-- On a valid 33-landmark front input with an empty side list,
`score_male_physique` succeeds with the posture default branch. -/
theorem score_male_physique_eq_of_len_noside (s : ℚ → ℚ) (front : List Point)
    (hf : front.length = 33) :
    score_male_physique s front [] =
      some (score_male_core s (front.getD 11 zp) (front.getD 12 zp) (front.getD 23 zp)
        (front.getD 24 zp) (front.getD 0 zp) (front.getD 15 zp) (front.getD 27 zp) none) := by
  unfold score_male_physique
  rw [getElem?_eq_some_getD front 11 (by omega), getElem?_eq_some_getD front 12 (by omega),
    getElem?_eq_some_getD front 23 (by omega), getElem?_eq_some_getD front 24 (by omega),
    getElem?_eq_some_getD front 0 (by omega), getElem?_eq_some_getD front 15 (by omega),
    getElem?_eq_some_getD front 27 (by omega)]
  simp only [Option.bind_eq_bind, Option.some_bind, Option.pure_def]

/-- All emitted integer scores of `score_male_core` lie in `[0, 100]`. -/
theorem score_male_core_bounds (s : ℚ → ℚ) (hs : ∀ x : ℚ, 0 ≤ x → 0 ≤ s x)
    (lsh rsh lhip rhip nose lwrist lankle : Point)
    (so : Option (Point × Point × Point × Point)) :
    (0 ≤ (score_male_core s lsh rsh lhip rhip nose lwrist lankle so).scores.shoulders ∧
      (score_male_core s lsh rsh lhip rhip nose lwrist lankle so).scores.shoulders ≤ 100) ∧
    (0 ≤ (score_male_core s lsh rsh lhip rhip nose lwrist lankle so).scores.v_taper ∧
      (score_male_core s lsh rsh lhip rhip nose lwrist lankle so).scores.v_taper ≤ 100) ∧
    (0 ≤ (score_male_core s lsh rsh lhip rhip nose lwrist lankle so).scores.chest ∧
      (score_male_core s lsh rsh lhip rhip nose lwrist lankle so).scores.chest ≤ 100) ∧
    (0 ≤ (score_male_core s lsh rsh lhip rhip nose lwrist lankle so).scores.core ∧
      (score_male_core s lsh rsh lhip rhip nose lwrist lankle so).scores.core ≤ 100) ∧
    (0 ≤ (score_male_core s lsh rsh lhip rhip nose lwrist lankle so).scores.symmetry ∧
      (score_male_core s lsh rsh lhip rhip nose lwrist lankle so).scores.symmetry ≤ 100) ∧
    (0 ≤ (score_male_core s lsh rsh lhip rhip nose lwrist lankle so).scores.posture ∧
      (score_male_core s lsh rsh lhip rhip nose lwrist lankle so).scores.posture ≤ 100) ∧
    (0 ≤ (score_male_core s lsh rsh lhip rhip nose lwrist lankle so).scores.arms ∧
      (score_male_core s lsh rsh lhip rhip nose lwrist lankle so).scores.arms ≤ 100) ∧
    (0 ≤ (score_male_core s lsh rsh lhip rhip nose lwrist lankle so).scores.overall ∧
      (score_male_core s lsh rsh lhip rhip nose lwrist lankle so).scores.overall ≤ 100) ∧
    (0 ≤ (score_male_core s lsh rsh lhip rhip nose lwrist lankle so).overall_score ∧
      (score_male_core s lsh rsh lhip rhip nose lwrist lankle so).overall_score ≤ 100) := by
  have hsw : 0 ≤ calculate_distance s lsh rsh := calculate_distance_nonneg hs lsh rsh
  simp only [score_male_core]
  refine ⟨⟨?_, ?_⟩, ⟨?_, ?_⟩, ⟨?_, ?_⟩, ⟨?_, ?_⟩, ⟨?_, ?_⟩, ⟨?_, ?_⟩, ⟨?_, ?_⟩, ⟨?_, ?_⟩,
    ⟨?_, ?_⟩⟩
  · exact int_trunc_nonneg (le_trans (by norm_num) (shoulders_block_bounds _).1)
  · exact int_trunc_le_100 (shoulders_block_bounds _).2
  · exact int_trunc_nonneg (le_trans (by norm_num) (v_taper_block_bounds _).1)
  · exact int_trunc_le_100 (v_taper_block_bounds _).2
  · exact int_trunc_nonneg (le_trans (by norm_num) (chest_block_bounds _).1)
  · exact int_trunc_le_100 (chest_block_bounds _).2
  · exact int_trunc_nonneg (le_trans (by norm_num) (core_block_bounds _).1)
  · exact int_trunc_le_100 (core_block_bounds _).2
  · exact int_trunc_nonneg (le_trans (by norm_num)
      (symmetry_block_bounds (by positivity)).1)
  · exact int_trunc_le_100 (symmetry_block_bounds (by positivity)).2
  · exact int_trunc_nonneg (le_trans (by norm_num) (posture_block_bounds _).1)
  · exact int_trunc_le_100 (posture_block_bounds _).2
  · exact int_trunc_nonneg (le_trans (by norm_num) (arms_block_bounds _).1)
  · exact int_trunc_le_100 (le_trans (arms_block_bounds _).2 (by norm_num))
  · exact int_trunc_nonneg (overall_bounds (shoulders_block_bounds _)
      (v_taper_block_bounds _) (chest_block_bounds _) (core_block_bounds _)
      (symmetry_block_bounds (by positivity)) (posture_block_bounds _)
      (arms_block_bounds _)).1
  · exact int_trunc_le_100 (overall_bounds (shoulders_block_bounds _)
      (v_taper_block_bounds _) (chest_block_bounds _) (core_block_bounds _)
      (symmetry_block_bounds (by positivity)) (posture_block_bounds _)
      (arms_block_bounds _)).2
  · exact int_trunc_nonneg (overall_bounds (shoulders_block_bounds _)
      (v_taper_block_bounds _) (chest_block_bounds _) (core_block_bounds _)
      (symmetry_block_bounds (by positivity)) (posture_block_bounds _)
      (arms_block_bounds _)).1
  · exact int_trunc_le_100 (overall_bounds (shoulders_block_bounds _)
      (v_taper_block_bounds _) (chest_block_bounds _) (core_block_bounds _)
      (symmetry_block_bounds (by positivity)) (posture_block_bounds _)
      (arms_block_bounds _)).2

/-- C1: for every valid 33-landmark front and side input to the male
physique scorer, each of the seven emitted category scores (shoulders,
v_taper, chest, core, symmetry, posture, arms), the emitted `overall` entry
of the scores dict and the emitted `overall_score` lie in `[0, 100]`
inclusive (the per-band clamps hold even at exact boundary ratios, since
the bounds are proved for every rational ratio value). -/
theorem c1_scores_in_range (s : ℚ → ℚ) (hs : ∀ x : ℚ, 0 ≤ x → 0 ≤ s x)
    (front side : List Point) (hf : front.length = 33) (hside : side.length = 33) :
    ∃ r, score_male_physique s front side = some r ∧
      (0 ≤ r.scores.shoulders ∧ r.scores.shoulders ≤ 100) ∧
      (0 ≤ r.scores.v_taper ∧ r.scores.v_taper ≤ 100) ∧
      (0 ≤ r.scores.chest ∧ r.scores.chest ≤ 100) ∧
      (0 ≤ r.scores.core ∧ r.scores.core ≤ 100) ∧
      (0 ≤ r.scores.symmetry ∧ r.scores.symmetry ≤ 100) ∧
      (0 ≤ r.scores.posture ∧ r.scores.posture ≤ 100) ∧
      (0 ≤ r.scores.arms ∧ r.scores.arms ≤ 100) ∧
      (0 ≤ r.scores.overall ∧ r.scores.overall ≤ 100) ∧
      (0 ≤ r.overall_score ∧ r.overall_score ≤ 100) :=
  ⟨_, score_male_physique_eq_of_len s front side hf hside,
    score_male_core_bounds s hs _ _ _ _ _ _ _ _⟩

/-- Witness for C1 at the concrete valid input `front_a` / `side_a` with
the square root interpreted by `sqrt_w`. -/
theorem c1_scores_in_range_witness :
    ∃ r, score_male_physique sqrt_w front_a side_a = some r ∧
      (0 ≤ r.scores.shoulders ∧ r.scores.shoulders ≤ 100) ∧
      (0 ≤ r.scores.v_taper ∧ r.scores.v_taper ≤ 100) ∧
      (0 ≤ r.scores.chest ∧ r.scores.chest ≤ 100) ∧
      (0 ≤ r.scores.core ∧ r.scores.core ≤ 100) ∧
      (0 ≤ r.scores.symmetry ∧ r.scores.symmetry ≤ 100) ∧
      (0 ≤ r.scores.posture ∧ r.scores.posture ≤ 100) ∧
      (0 ≤ r.scores.arms ∧ r.scores.arms ≤ 100) ∧
      (0 ≤ r.scores.overall ∧ r.scores.overall ≤ 100) ∧
      (0 ≤ r.overall_score ∧ r.overall_score ≤ 100) :=
  c1_scores_in_range sqrt_w sqrt_w_nonneg front_a side_a (by rfl) (by rfl)


/-! ### Assembly of the strong/growth area invariants (C8) -/

/-- A block never contributes to both lists. -/
theorem disjoint_pair {b : CatBlock} {n : String} (hb : block_inv b n) {x y : Area}
    (hx : x ∈ b.strong) (hy : y ∈ b.growth) : False := by
  rcases hb.1 with he | he
  · rw [he] at hx
    simp at hx
  · rw [he] at hy
    simp at hy

/-- The assembled, sorted, truncated area lists satisfy the emitted-list
invariants whenever each of the seven blocks satisfies its block
invariant. -/
theorem areas_assembled (b1 b2 b3 b4 b5 b6 b7 : CatBlock)
    (h1 : block_inv b1 "Shoulders") (h2 : block_inv b2 "V-Taper")
    (h3 : block_inv b3 "Core") (h4 : block_inv b4 "Symmetry")
    (h5 : block_inv b5 "Chest") (h6 : block_inv b6 "Posture")
    (h7 : block_inv b7 "Arms") :
    ((sort_area_desc (b1.strong ++ b2.strong ++ b3.strong ++ b4.strong ++ b5.strong ++ b6.strong ++ b7.strong)).take 3).length ≤ 3 ∧
    ((sort_area_asc (b1.growth ++ b2.growth ++ b3.growth ++ b4.growth ++ b5.growth ++ b6.growth ++ b7.growth)).take 3).length ≤ 3 ∧
    (∀ a ∈ (sort_area_desc (b1.strong ++ b2.strong ++ b3.strong ++ b4.strong ++ b5.strong ++ b6.strong ++ b7.strong)).take 3,
      a.name ∈ (["Shoulders", "V-Taper", "Core", "Symmetry", "Chest", "Posture", "Arms"] : List String)) ∧
    (∀ a ∈ (sort_area_asc (b1.growth ++ b2.growth ++ b3.growth ++ b4.growth ++ b5.growth ++ b6.growth ++ b7.growth)).take 3,
      a.name ∈ (["Shoulders", "V-Taper", "Core", "Symmetry", "Chest", "Posture", "Arms"] : List String)) ∧
    (∀ a ∈ (sort_area_desc (b1.strong ++ b2.strong ++ b3.strong ++ b4.strong ++ b5.strong ++ b6.strong ++ b7.strong)).take 3,
      ∀ b ∈ (sort_area_asc (b1.growth ++ b2.growth ++ b3.growth ++ b4.growth ++ b5.growth ++ b6.growth ++ b7.growth)).take 3, a.name ≠ b.name) ∧
    ((sort_area_desc (b1.strong ++ b2.strong ++ b3.strong ++ b4.strong ++ b5.strong ++ b6.strong ++ b7.strong)).take 3).Pairwise (fun x y => y.score ≤ x.score) ∧
    ((sort_area_asc (b1.growth ++ b2.growth ++ b3.growth ++ b4.growth ++ b5.growth ++ b6.growth ++ b7.growth)).take 3).Pairwise (fun x y => x.score ≤ y.score) := by
  have hSmem : ∀ a ∈ (sort_area_desc (b1.strong ++ b2.strong ++ b3.strong ++ b4.strong ++ b5.strong ++ b6.strong ++ b7.strong)).take 3,
      a ∈ b1.strong ∨ a ∈ b2.strong ∨ a ∈ b3.strong ∨ a ∈ b4.strong ∨
        a ∈ b5.strong ∨ a ∈ b6.strong ∨ a ∈ b7.strong := by
    intro a ha
    have hm := mem_sort_area_desc (List.take_subset _ _ ha)
    simpa [List.mem_append] using hm
  have hGmem : ∀ a ∈ (sort_area_asc (b1.growth ++ b2.growth ++ b3.growth ++ b4.growth ++ b5.growth ++ b6.growth ++ b7.growth)).take 3,
      a ∈ b1.growth ∨ a ∈ b2.growth ∨ a ∈ b3.growth ∨ a ∈ b4.growth ∨
        a ∈ b5.growth ∨ a ∈ b6.growth ∨ a ∈ b7.growth := by
    intro a ha
    have hm := mem_sort_area_asc (List.take_subset _ _ ha)
    simpa [List.mem_append] using hm
  refine ⟨?_, ?_, ?_, ?_, ?_, ?_, ?_⟩
  · exact List.length_take_le 3 _
  · exact List.length_take_le 3 _
  · intro a ha
    rcases hSmem a ha with m | m | m | m | m | m | m
    · simp [h1.2.1 a m]
    · simp [h2.2.1 a m]
    · simp [h3.2.1 a m]
    · simp [h4.2.1 a m]
    · simp [h5.2.1 a m]
    · simp [h6.2.1 a m]
    · simp [h7.2.1 a m]
  · intro a ha
    rcases hGmem a ha with m | m | m | m | m | m | m
    · simp [h1.2.2.1 a m]
    · simp [h2.2.2.1 a m]
    · simp [h3.2.2.1 a m]
    · simp [h4.2.2.1 a m]
    · simp [h5.2.2.1 a m]
    · simp [h6.2.2.1 a m]
    · simp [h7.2.2.1 a m]
  · intro a ha b hb heq
    rcases hSmem a ha with ma | ma | ma | ma | ma | ma | ma <;>
      rcases hGmem b hb with mb | mb | mb | mb | mb | mb | mb
    · exact disjoint_pair h1 ma mb
    · rw [h1.2.1 a ma, h2.2.2.1 b mb] at heq
      simp at heq
    · rw [h1.2.1 a ma, h3.2.2.1 b mb] at heq
      simp at heq
    · rw [h1.2.1 a ma, h4.2.2.1 b mb] at heq
      simp at heq
    · rw [h1.2.1 a ma, h5.2.2.1 b mb] at heq
      simp at heq
    · rw [h1.2.1 a ma, h6.2.2.1 b mb] at heq
      simp at heq
    · rw [h1.2.1 a ma, h7.2.2.1 b mb] at heq
      simp at heq
    · rw [h2.2.1 a ma, h1.2.2.1 b mb] at heq
      simp at heq
    · exact disjoint_pair h2 ma mb
    · rw [h2.2.1 a ma, h3.2.2.1 b mb] at heq
      simp at heq
    · rw [h2.2.1 a ma, h4.2.2.1 b mb] at heq
      simp at heq
    · rw [h2.2.1 a ma, h5.2.2.1 b mb] at heq
      simp at heq
    · rw [h2.2.1 a ma, h6.2.2.1 b mb] at heq
      simp at heq
    · rw [h2.2.1 a ma, h7.2.2.1 b mb] at heq
      simp at heq
    · rw [h3.2.1 a ma, h1.2.2.1 b mb] at heq
      simp at heq
    · rw [h3.2.1 a ma, h2.2.2.1 b mb] at heq
      simp at heq
    · exact disjoint_pair h3 ma mb
    · rw [h3.2.1 a ma, h4.2.2.1 b mb] at heq
      simp at heq
    · rw [h3.2.1 a ma, h5.2.2.1 b mb] at heq
      simp at heq
    · rw [h3.2.1 a ma, h6.2.2.1 b mb] at heq
      simp at heq
    · rw [h3.2.1 a ma, h7.2.2.1 b mb] at heq
      simp at heq
    · rw [h4.2.1 a ma, h1.2.2.1 b mb] at heq
      simp at heq
    · rw [h4.2.1 a ma, h2.2.2.1 b mb] at heq
      simp at heq
    · rw [h4.2.1 a ma, h3.2.2.1 b mb] at heq
      simp at heq
    · exact disjoint_pair h4 ma mb
    · rw [h4.2.1 a ma, h5.2.2.1 b mb] at heq
      simp at heq
    · rw [h4.2.1 a ma, h6.2.2.1 b mb] at heq
      simp at heq
    · rw [h4.2.1 a ma, h7.2.2.1 b mb] at heq
      simp at heq
    · rw [h5.2.1 a ma, h1.2.2.1 b mb] at heq
      simp at heq
    · rw [h5.2.1 a ma, h2.2.2.1 b mb] at heq
      simp at heq
    · rw [h5.2.1 a ma, h3.2.2.1 b mb] at heq
      simp at heq
    · rw [h5.2.1 a ma, h4.2.2.1 b mb] at heq
      simp at heq
    · exact disjoint_pair h5 ma mb
    · rw [h5.2.1 a ma, h6.2.2.1 b mb] at heq
      simp at heq
    · rw [h5.2.1 a ma, h7.2.2.1 b mb] at heq
      simp at heq
    · rw [h6.2.1 a ma, h1.2.2.1 b mb] at heq
      simp at heq
    · rw [h6.2.1 a ma, h2.2.2.1 b mb] at heq
      simp at heq
    · rw [h6.2.1 a ma, h3.2.2.1 b mb] at heq
      simp at heq
    · rw [h6.2.1 a ma, h4.2.2.1 b mb] at heq
      simp at heq
    · rw [h6.2.1 a ma, h5.2.2.1 b mb] at heq
      simp at heq
    · exact disjoint_pair h6 ma mb
    · rw [h6.2.1 a ma, h7.2.2.1 b mb] at heq
      simp at heq
    · rw [h7.2.1 a ma, h1.2.2.1 b mb] at heq
      simp at heq
    · rw [h7.2.1 a ma, h2.2.2.1 b mb] at heq
      simp at heq
    · rw [h7.2.1 a ma, h3.2.2.1 b mb] at heq
      simp at heq
    · rw [h7.2.1 a ma, h4.2.2.1 b mb] at heq
      simp at heq
    · rw [h7.2.1 a ma, h5.2.2.1 b mb] at heq
      simp at heq
    · rw [h7.2.1 a ma, h6.2.2.1 b mb] at heq
      simp at heq
    · exact disjoint_pair h7 ma mb
  · exact (sort_area_desc_sorted _).sublist (List.take_sublist _ _)
  · exact (sort_area_asc_sorted _).sublist (List.take_sublist _ _)


/-- Evaluation helper for Python `round` at values below the halfway
point. -/
theorem pyRound_eq_of {q : ℚ} {z : ℤ} (h1 : (z : ℚ) ≤ q) (h2 : q < z + 1)
    (h3 : q - z < 1 / 2) : pyRound q = z := by
  unfold pyRound
  have hf : ⌊q⌋ = z := Int.floor_eq_iff.mpr ⟨h1, by exact_mod_cast h2⟩
  rw [hf, if_pos (by exact_mod_cast h3)]

/-- C2 (amended): the emitted `overall_score` is the truncation of the
weighted sum of the internal floating-point category scores (before their
own truncation), and every emitted integer score is the truncation (not
rounding) of its float value.  The corresponding identity on the emitted
integer category scores fails in general (see the counterexample). -/
theorem c2_overall_trunc_of_float_scores (s : ℚ → ℚ) (front side : List Point)
    (r : MaleResult) (h : score_male_physique s front side = some r) :
    r.overall_score = int_trunc (r.scoresq.shoulders * 0.20 + r.scoresq.v_taper * 0.18 +
      r.scoresq.chest * 0.15 + r.scoresq.core * 0.15 + r.scoresq.symmetry * 0.12 +
      r.scoresq.posture * 0.10 + r.scoresq.arms * 0.10) ∧
    r.scores.shoulders = int_trunc r.scoresq.shoulders ∧
    r.scores.v_taper = int_trunc r.scoresq.v_taper ∧
    r.scores.core = int_trunc r.scoresq.core ∧
    r.scores.symmetry = int_trunc r.scoresq.symmetry ∧
    r.scores.chest = int_trunc r.scoresq.chest ∧
    r.scores.posture = int_trunc r.scoresq.posture ∧
    r.scores.arms = int_trunc r.scoresq.arms ∧
    r.scores.overall = int_trunc r.scoresq.overall ∧
    r.overall_score = int_trunc r.scoresq.overall := by
  obtain ⟨lsh, rsh, lhip, rhip, nose, lwrist, lankle, so, rfl⟩ :=
    score_male_physique_eq_some h
  exact ⟨rfl, rfl, rfl, rfl, rfl, rfl, rfl, rfl, rfl, rfl⟩

/-- Witness for the amended C2 at the concrete input `front_a` / `side_a`. -/
theorem c2_overall_trunc_of_float_scores_witness :
    ∃ r, score_male_physique sqrt_w front_a side_a = some r ∧
      r.overall_score = int_trunc (r.scoresq.shoulders * 0.20 + r.scoresq.v_taper * 0.18 +
        r.scoresq.chest * 0.15 + r.scoresq.core * 0.15 + r.scoresq.symmetry * 0.12 +
        r.scoresq.posture * 0.10 + r.scoresq.arms * 0.10) := by
  have h := score_male_physique_eq_of_len sqrt_w front_a side_a rfl rfl
  exact ⟨_, h, (c2_overall_trunc_of_float_scores sqrt_w front_a side_a _ h).1⟩

/-- C3 (amended): the key insight is the fixed strength sentence of the
category holding the maximum score (Python `max` over the items with the
`overall` key zeroed; first maximal category on ties) followed by the fixed
generic growth fallback sentence.  The growth half is always the generic
fallback because Python `min` with the same key always selects `overall`
(keyed `0`, below every category score), and `overall` has no entry in the
growth template map. -/
theorem c3_key_insight_amended (s : ℚ → ℚ) (front side : List Point)
    (r : MaleResult) (h : score_male_physique s front side = some r) :
    r.key_insight = insights_map_get (py_max_by nkey (score_items r.scoresq)).1 ++ " " ++
      "Keep working consistently on all muscle groups." := by
  obtain ⟨lsh, rsh, lhip, rhip, nose, lwrist, lankle, so, rfl⟩ :=
    score_male_physique_eq_some h
  simp only [score_male_core, generate_key_insight]
  rw [py_min_nkey_items]
  · simp [growth_map_get]
  · exact lt_of_lt_of_le (by norm_num) (shoulders_block_bounds _).1
  · exact lt_of_lt_of_le (by norm_num) (v_taper_block_bounds _).1
  · exact lt_of_lt_of_le (by norm_num) (core_block_bounds _).1
  · exact lt_of_lt_of_le (by norm_num) (symmetry_block_bounds (by positivity)).1
  · exact lt_of_lt_of_le (by norm_num) (chest_block_bounds _).1
  · exact lt_of_lt_of_le (by norm_num) (posture_block_bounds _).1
  · exact lt_of_lt_of_le (by norm_num) (arms_block_bounds _).1

/-- Witness for the amended C3 at the concrete input `front_a` / `side_a`. -/
theorem c3_key_insight_amended_witness :
    ∃ r, score_male_physique sqrt_w front_a side_a = some r ∧
      r.key_insight = insights_map_get (py_max_by nkey (score_items r.scoresq)).1 ++ " " ++
        "Keep working consistently on all muscle groups." := by
  have h := score_male_physique_eq_of_len sqrt_w front_a side_a rfl rfl
  exact ⟨_, h, c3_key_insight_amended sqrt_w front_a side_a _ h⟩

/-- C8: the returned `strong_areas` and `growth_areas` lists each contain
at most 3 entries, only ever carry the seven category display names (never
the `overall` category), are disjoint by category name, and are emitted
sorted descending (strong) respectively ascending (growth) by score. -/
theorem c8_area_lists_invariants (s : ℚ → ℚ) (front side : List Point)
    (r : MaleResult) (h : score_male_physique s front side = some r) :
    r.strong_areas.length ≤ 3 ∧ r.growth_areas.length ≤ 3 ∧
    (∀ a ∈ r.strong_areas,
      a.name ∈ (["Shoulders", "V-Taper", "Core", "Symmetry", "Chest", "Posture", "Arms"] : List String)) ∧
    (∀ a ∈ r.growth_areas,
      a.name ∈ (["Shoulders", "V-Taper", "Core", "Symmetry", "Chest", "Posture", "Arms"] : List String)) ∧
    (∀ a ∈ r.strong_areas, ∀ b ∈ r.growth_areas, a.name ≠ b.name) ∧
    r.strong_areas.Pairwise (fun x y => y.score ≤ x.score) ∧
    r.growth_areas.Pairwise (fun x y => x.score ≤ y.score) := by
  obtain ⟨lsh, rsh, lhip, rhip, nose, lwrist, lankle, so, rfl⟩ :=
    score_male_physique_eq_some h
  simp only [score_male_core]
  exact areas_assembled _ _ _ _ _ _ _ (shoulders_block_areas _) (v_taper_block_areas _)
    (core_block_areas _) (symmetry_block_areas _) (chest_block_areas _)
    (posture_block_areas _) (arms_block_areas _)

/-- Witness for C8 at the concrete input `front_a` / `side_a`. -/
theorem c8_area_lists_invariants_witness :
    ∃ r, score_male_physique sqrt_w front_a side_a = some r ∧
      r.strong_areas.length ≤ 3 ∧ r.growth_areas.length ≤ 3 ∧
      (∀ a ∈ r.strong_areas, ∀ b ∈ r.growth_areas, a.name ≠ b.name) := by
  have h := score_male_physique_eq_of_len sqrt_w front_a side_a rfl rfl
  have hc := c8_area_lists_invariants sqrt_w front_a side_a _ h
  exact ⟨_, h, hc.1, hc.2.1, hc.2.2.2.2.1⟩

/-- C9 (amended): when the side landmark list is empty (Python falsy), the
posture category score is the default 75 and the male scorer completes
without raising; a nonempty side list missing a required side landmark
raises IndexError instead (see the counterexample). -/
theorem c9_posture_default_empty_side (s : ℚ → ℚ) (front : List Point)
    (hf : front.length = 33) :
    ∃ r, score_male_physique s front [] = some r ∧
      r.scoresq.posture = 75 ∧ r.scores.posture = 75 := by
  refine ⟨_, score_male_physique_eq_of_len_noside s front hf, ?_, ?_⟩
  · simp [score_male_core, posture_block]
  · simp only [score_male_core]
    show int_trunc (posture_block none).score = 75
    simp only [posture_block]
    exact int_trunc_eq_of (by norm_num) (by norm_num) (by norm_num)

/-- Witness for the amended C9 at the concrete input `front_a`. -/
theorem c9_posture_default_empty_side_witness :
    ∃ r, score_male_physique sqrt_w front_a [] = some r ∧
      r.scoresq.posture = 75 ∧ r.scores.posture = 75 :=
  c9_posture_default_empty_side sqrt_w front_a rfl

/-- C9 (counterexample): with a valid 33-landmark front list and a
nonempty side list that lacks the required side landmarks, the scorer
raises (returns `none`) instead of completing with the default posture
score of 75, refuting the claim for calls whose side landmarks are present
but incomplete. -/
theorem c9_counterexample : score_male_physique sqrt_w front_a [zp] = none := rfl

/-- C4 (amended): whenever `current_scores` carries the `overall` key,
`save_progression` succeeds and stores the signed per-category deltas
`current - baseline`, every category other than the current `overall` read
defaulting to 0 when absent; a missing `overall` in `current_scores`
raises KeyError instead (see the counterexample). -/
theorem c4_progression_deltas (user_id : String) (scan_id : ℤ)
    (current_scores baseline_scores : List (String × ℤ))
    (days_since_baseline : ℤ) (ov : ℤ)
    (h : dict_get current_scores "overall" = some ov) :
    save_progression user_id scan_id current_scores baseline_scores days_since_baseline =
      some
        { user_id := user_id
          scan_id := scan_id
          days_since_baseline := days_since_baseline
          overall_score_delta := ov - dict_getD baseline_scores "overall"
          shoulder_score_delta :=
            dict_getD current_scores "shoulders" - dict_getD baseline_scores "shoulders"
          chest_score_delta :=
            dict_getD current_scores "chest" - dict_getD baseline_scores "chest"
          core_score_delta :=
            dict_getD current_scores "core" - dict_getD baseline_scores "core"
          v_taper_score_delta :=
            dict_getD current_scores "v_taper" - dict_getD baseline_scores "v_taper"
          symmetry_score_delta :=
            dict_getD current_scores "symmetry" - dict_getD baseline_scores "symmetry"
          posture_score_delta :=
            dict_getD current_scores "posture" - dict_getD baseline_scores "posture"
          arms_score_delta :=
            dict_getD current_scores "arms" - dict_getD baseline_scores "arms" } := by
  unfold save_progression
  rw [h]
  rfl

/-- Witness for the amended C4 on concrete score dicts. -/
theorem c4_progression_deltas_witness :
    save_progression "demo_user_male" 2 [("overall", 50), ("shoulders", 60)]
        [("overall", 40)] 5 =
      some
        { user_id := "demo_user_male"
          scan_id := 2
          days_since_baseline := 5
          overall_score_delta := 50 - dict_getD [("overall", 40)] "overall"
          shoulder_score_delta :=
            dict_getD [("overall", 50), ("shoulders", 60)] "shoulders" -
              dict_getD [("overall", 40)] "shoulders"
          chest_score_delta :=
            dict_getD [("overall", 50), ("shoulders", 60)] "chest" -
              dict_getD [("overall", 40)] "chest"
          core_score_delta :=
            dict_getD [("overall", 50), ("shoulders", 60)] "core" -
              dict_getD [("overall", 40)] "core"
          v_taper_score_delta :=
            dict_getD [("overall", 50), ("shoulders", 60)] "v_taper" -
              dict_getD [("overall", 40)] "v_taper"
          symmetry_score_delta :=
            dict_getD [("overall", 50), ("shoulders", 60)] "symmetry" -
              dict_getD [("overall", 40)] "symmetry"
          posture_score_delta :=
            dict_getD [("overall", 50), ("shoulders", 60)] "posture" -
              dict_getD [("overall", 40)] "posture"
          arms_score_delta :=
            dict_getD [("overall", 50), ("shoulders", 60)] "arms" -
              dict_getD [("overall", 40)] "arms" } :=
  c4_progression_deltas "demo_user_male" 2 [("overall", 50), ("shoulders", 60)]
    [("overall", 40)] 5 50 (by simp [dict_get])

/-- C4 (counterexample): when `current_scores` lacks `overall` (here both
dicts are empty), `save_progression` raises KeyError (`none`) instead of
defaulting the delta to 0, refuting the claim that the operation succeeds
for any missing category including `overall`. -/
theorem c4_counterexample : save_progression "demo_user_male" 1 [] [] 0 = none := rfl

/-- C5: `extract_body_features` never raises: it either returns the value
of its `try` body, or, when the `try` body raises (any missing landmark
index), it returns exactly the fixed default feature set with scores
`overall=70, vtaper=70, symmetry=80, posture=70`, one generic insight and
one generic focus area (raw measurements and ratios left empty).  Any
front list short of the required landmarks (length ≤ 28) takes the default
branch. -/
theorem c5_extract_fail_soft (s : ℚ → ℚ) (front_pose side_pose : List Point)
    (gender : String) :
    ((∃ f, extract_try s front_pose side_pose gender = some f ∧
        extract_body_features s front_pose side_pose gender = f) ∨
      (extract_try s front_pose side_pose gender = none ∧
        extract_body_features s front_pose side_pose gender = default_features)) ∧
    (front_pose.length ≤ 28 →
      extract_body_features s front_pose side_pose gender = default_features) ∧
    default_features.scores = ⟨70, 80, 70, 70⟩ ∧
    default_features.insights = ["Unable to fully analyze - using baseline assessment"] ∧
    default_features.focus_areas = [⟨"general fitness", "medium", "Full body training"⟩] ∧
    default_features.raw_measurements = none ∧ default_features.ratios = none := by
  refine ⟨?_, ?_, rfl, rfl, rfl, rfl, rfl⟩
  · cases hx : extract_try s front_pose side_pose gender with
    | some f => exact Or.inl ⟨f, rfl, by simp [extract_body_features, hx]⟩
    | none => exact Or.inr ⟨rfl, by simp [extract_body_features, hx]⟩
  · intro hlen
    have hx : extract_try s front_pose side_pose gender = none := by
      cases hx : extract_try s front_pose side_pose gender with
      | none => rfl
      | some f =>
        exfalso
        simp only [extract_try, Option.bind_eq_bind, Option.bind_eq_some,
          Option.pure_def] at hx
        obtain ⟨-, -, -, -, -, -, -, -, -, -, -, -, -, -, a28, h28, -⟩ := hx
        rw [List.getElem?_eq_none (by omega)] at h28
        simp at h28
    simp [extract_body_features, hx]

/-- Witness-style instance of C5 at a concrete too-short input (the empty
landmark lists): the default bundle is returned. -/
theorem c5_extract_fail_soft_witness :
    extract_body_features sqrt_w [] [] "male" = default_features :=
  (c5_extract_fail_soft sqrt_w [] [] "male").2.1 (by norm_num)

/-- C6: the female and non-binary placeholder scorers always return the
fixed dict with `overall_score = 0` and the "coming soon" message,
regardless of landmark content, and they never raise; but `save_scan`
raises KeyError on that placeholder dict (its `scores` key is absent), so
the persistence step of the request path fails (the caller turns this into
an HTTP 500) instead of completing. -/
theorem c6_placeholder_save_scan_fails (front_landmarks side_landmarks : List Point)
    (height_cm : Option ℚ) (user_id : String) (is_baseline : Bool) :
    score_female_physique front_landmarks side_landmarks height_cm =
      { overall_score := some 0, scores := none, body_type := none, frame := none
        strong_areas := none, growth_areas := none, key_insight := none
        message := some "Female physique analysis coming soon!" } ∧
    score_non_binary_physique front_landmarks side_landmarks height_cm =
      { overall_score := some 0, scores := none, body_type := none, frame := none
        strong_areas := none, growth_areas := none, key_insight := none
        message := some "Non-binary physique analysis coming soon!" } ∧
    save_scan_row user_id (score_female_physique front_landmarks side_landmarks height_cm)
      is_baseline = none ∧
    save_scan_row user_id
      (score_non_binary_physique front_landmarks side_landmarks height_cm)
      is_baseline = none :=
  ⟨rfl, rfl, rfl, rfl⟩

/-- C7 (amended): for every landmark set the legacy analyzer accepts, the
emitted body-fat estimate is `round(clamp(8, 25, bmi * 0.8), 1)` — the BMI
proxy is scaled by 0.8 before clamping — and the emitted muscle mass is
`round(100 - clamp(8, 25, bmi * 0.8), 1)`, with
`bmi = estimate_bmi(hip*0.75, shoulder) = 18 + (waist/shoulder - 0.6)*15`. -/
theorem c7_body_fat_amended (s : ℚ → ℚ) (landmarks : List Point) (r : BodyAnalysis)
    (h : analyze_body s landmarks = some r) :
    r.bodyFatEstimate = pyRoundTo 1 (max 8 (min 25
      (estimate_bmi (hip_width_ab s landmarks * 0.75) (shoulder_width_ab s landmarks) * 0.8))) ∧
    r.muscleMassEstimate = pyRoundTo 1 (100 - max 8 (min 25
      (estimate_bmi (hip_width_ab s landmarks * 0.75) (shoulder_width_ab s landmarks) * 0.8))) := by
  unfold analyze_body at h
  split_ifs at h
  rw [Option.some_inj] at h
  subst h
  exact ⟨rfl, rfl⟩

/-- Witness for the amended C7 at the concrete input `lm_b`. -/
theorem c7_body_fat_amended_witness :
    ∃ r, analyze_body sqrt_w lm_b = some r ∧
      r.bodyFatEstimate = pyRoundTo 1 (max 8 (min 25
        (estimate_bmi (hip_width_ab sqrt_w lm_b * 0.75) (shoulder_width_ab sqrt_w lm_b) * 0.8))) := by
  have hlen : ¬lm_b.length < 33 := by norm_num [show lm_b.length = 33 from rfl]
  have hsw : shoulder_width_ab sqrt_w lm_b = 40 := by
    rw [shoulder_width_ab, show lm_b.getD 11 ⟨0, 0⟩ = zp from rfl,
      show lm_b.getD 12 ⟨0, 0⟩ = (⟨1 / 5, 0⟩ : Point) from rfl]
    norm_num [calculate_distance, sqrt_w, zp]
  have hx : ∃ r, analyze_body sqrt_w lm_b = some r := by
    unfold analyze_body
    rw [if_neg hlen, if_neg (by rw [hsw]; norm_num)]
    exact ⟨_, rfl⟩
  obtain ⟨r, hr⟩ := hx
  exact ⟨r, hr, (c7_body_fat_amended sqrt_w lm_b r hr).1⟩


/-- On a 33-landmark front list, the `try` body of `extract_body_features`
succeeds on the indexed landmarks. -/
theorem extract_try_eq_of_len (s : ℚ → ℚ) (front_pose side_pose : List Point)
    (gender : String) (hf : front_pose.length = 33) :
    extract_try s front_pose side_pose gender =
      some (extract_core s (front_pose.getD 11 zp) (front_pose.getD 12 zp)
        (front_pose.getD 23 zp) (front_pose.getD 24 zp) (front_pose.getD 25 zp)
        (front_pose.getD 26 zp) (front_pose.getD 27 zp) (front_pose.getD 28 zp)
        (front_pose.getD 0 zp) (front_pose.getD 15 zp) (front_pose.getD 16 zp)
        side_pose gender) := by
  unfold extract_try
  rw [getElem?_eq_some_getD front_pose 11 (by omega), getElem?_eq_some_getD front_pose 12 (by omega),
    getElem?_eq_some_getD front_pose 23 (by omega), getElem?_eq_some_getD front_pose 24 (by omega),
    getElem?_eq_some_getD front_pose 25 (by omega), getElem?_eq_some_getD front_pose 26 (by omega),
    getElem?_eq_some_getD front_pose 27 (by omega), getElem?_eq_some_getD front_pose 28 (by omega),
    getElem?_eq_some_getD front_pose 0 (by omega), getElem?_eq_some_getD front_pose 15 (by omega),
    getElem?_eq_some_getD front_pose 16 (by omega)]
  simp only [Option.bind_eq_bind, Option.some_bind, Option.pure_def]

/-- C10: for a male feature extraction whose required front landmarks are
all present and whose left hip equals its right hip (hip width 0), the
`shoulder_hip_ratio` falls back to 0 (not the physique scorer's 1.0
fallback), so the emitted ratio is 0 and the emitted vtaper score is
`round(clamp(0, 100, 100 - |0 - 1.6| * 50)) = 20`. -/
theorem c10_vtaper_hip_zero (s : ℚ → ℚ) (front_pose side_pose : List Point)
    (hf : front_pose.length = 33) (h0 : s 0 = 0) (p : Point)
    (h23 : front_pose[23]? = some p) (h24 : front_pose[24]? = some p) :
    ((extract_body_features s front_pose side_pose "male").ratios).map
      (fun rt => rt.shoulder_hip_ratio) = some 0 ∧
    (extract_body_features s front_pose side_pose "male").scores.vtaper = 20 := by
  have hp23 : front_pose.getD 23 zp = p := by
    rw [List.getD_eq_getElem?_getD, h23]
    rfl
  have hp24 : front_pose.getD 24 zp = p := by
    rw [List.getD_eq_getElem?_getD, h24]
    rfl
  have hx := extract_try_eq_of_len s front_pose side_pose "male" hf
  rw [hp23, hp24] at hx
  have hdist : calculate_distance s p p = 0 := by
    simp [calculate_distance, sub_self, h0]
  have habs : |(0 : ℚ) - 1.6| = 1.6 := by
    rw [abs_of_nonpos (by norm_num)]
    norm_num
  unfold extract_body_features
  rw [hx]
  dsimp only
  constructor
  · simp only [extract_core, hdist]
    rw [if_neg (lt_irrefl (0 : ℚ))]
    norm_num [pyRoundTo, pyRound, Int.floor_zero]
  · simp only [extract_core, hdist]
    rw [if_neg (lt_irrefl (0 : ℚ))]
    simp only [if_true]
    rw [habs, show (100 : ℚ) - 1.6 * 50 = 20 by norm_num,
      min_eq_right (by norm_num), max_eq_right (by norm_num)]
    exact pyRound_eq_of (by norm_num) (by norm_num) (by norm_num)

/-- Witness for C10 at the concrete input `front_a` / `side_a` (whose hip
landmarks 23 and 24 coincide at the origin). -/
theorem c10_vtaper_hip_zero_witness :
    ((extract_body_features sqrt_w front_a side_a "male").ratios).map
      (fun rt => rt.shoulder_hip_ratio) = some 0 ∧
    (extract_body_features sqrt_w front_a side_a "male").scores.vtaper = 20 :=
  c10_vtaper_hip_zero sqrt_w front_a side_a rfl sqrt_w_zero zp rfl rfl


/-! ### Concrete evaluation of the scorer on `front_a` / `side_a` -/


/-- Disequalities of the category key strings, packaged for simp. -/
theorem category_string_facts :
    ((("shoulders" : String) = "overall") = False) ∧
    ((("v_taper" : String) = "overall") = False) ∧
    ((("core" : String) = "overall") = False) ∧
    ((("symmetry" : String) = "overall") = False) ∧
    ((("chest" : String) = "overall") = False) ∧
    ((("posture" : String) = "overall") = False) ∧
    ((("arms" : String) = "overall") = False) ∧
    ((("core" : String) = "shoulders") = False) ∧
    ((("core" : String) = "v_taper") = False) ∧
    ((("core" : String) = "chest") = False) ∧
    ((("overall" : String) = "shoulders") = False) ∧
    ((("overall" : String) = "v_taper") = False) ∧
    ((("overall" : String) = "chest") = False) ∧
    ((("overall" : String) = "core") = False) ∧
    ((("overall" : String) = "symmetry") = False) ∧
    ((("overall" : String) = "posture") = False) ∧
    ((("overall" : String) = "arms") = False) := by
  refine ⟨?_, ?_, ?_, ?_, ?_, ?_, ?_, ?_, ?_, ?_, ?_, ?_, ?_, ?_, ?_, ?_, ?_⟩ <;> simp

theorem int_trunc_50 : int_trunc (50 : ℚ) = 50 :=
  int_trunc_eq_of (by norm_num) (by norm_num) (by norm_num)

theorem int_trunc_45 : int_trunc (45 : ℚ) = 45 :=
  int_trunc_eq_of (by norm_num) (by norm_num) (by norm_num)

theorem int_trunc_100 : int_trunc (100 : ℚ) = 100 :=
  int_trunc_eq_of (by norm_num) (by norm_num) (by norm_num)

theorem int_trunc_60 : int_trunc (60 : ℚ) = 60 :=
  int_trunc_eq_of (by norm_num) (by norm_num) (by norm_num)

theorem int_trunc_sym_a : int_trunc (998951 / 10000 : ℚ) = 99 :=
  int_trunc_eq_of (by norm_num) (by norm_num) (by norm_num)

theorem int_trunc_post_a : int_trunc (199 / 2 : ℚ) = 99 :=
  int_trunc_eq_of (by norm_num) (by norm_num) (by norm_num)

theorem int_trunc_overall_a : int_trunc (19009353 / 250000 : ℚ) = 76 :=
  int_trunc_eq_of (by norm_num) (by norm_num) (by norm_num)

theorem int_trunc_combo_a : int_trunc (1897 / 25 : ℚ) = 75 :=
  int_trunc_eq_of (by norm_num) (by norm_num) (by norm_num)

theorem dist_a1 : calculate_distance sqrt_w ⟨0, 3 / 5000⟩ zp = 3 / 5000 := by
  norm_num [calculate_distance, sqrt_w, zp]

theorem dist_a0 : calculate_distance sqrt_w zp zp = 0 := by
  norm_num [calculate_distance, sqrt_w, zp]

theorem shoulders_block_at_1 :
    shoulders_block 1 =
      ⟨50, [], [⟨"Shoulders", 50, "Focus on shoulder width training - high priority"⟩]⟩ := by
  norm_num [shoulders_block, max_def, int_trunc_50]

theorem v_taper_block_at_1 :
    v_taper_block 1 =
      ⟨45, [], [⟨"V-Taper", 45, "Build wider shoulders and tighter core"⟩]⟩ := by
  norm_num [v_taper_block, max_def, int_trunc_45]

theorem core_block_at_0 :
    core_block 0 =
      ⟨100, [⟨"Core", 100, "Exceptional core definition and leanness"⟩], []⟩ := by
  norm_num [core_block, min_def, int_trunc_100]

theorem symmetry_block_at_a :
    symmetry_block (3 / 10000) =
      ⟨998951 / 10000, [⟨"Symmetry", 99, "Perfect left-right balance"⟩], []⟩ := by
  norm_num [symmetry_block, int_trunc_sym_a]

theorem chest_block_at_1 :
    chest_block 1 = ⟨100, [⟨"Chest", 100, "Well-developed chest"⟩], []⟩ := by
  norm_num [chest_block, min_def, int_trunc_100]

theorem posture_block_at_a :
    posture_block (some (⟨3 / 500, 0⟩, zp, zp, zp)) =
      ⟨199 / 2, [⟨"Posture", 99, "Excellent upright posture"⟩], []⟩ := by
  norm_num [posture_block, zp, abs_of_nonneg, int_trunc_post_a]

theorem arms_block_at_1 :
    arms_block 1 =
      ⟨60, [], [⟨"Arms", 60, "Increase arm size with curls and tricep work"⟩]⟩ := by
  norm_num [arms_block, min_def, max_def, abs_of_nonneg, int_trunc_60]

/-- Full evaluation of the male scorer on `front_a` / `side_a`. -/
theorem score_eval_a : score_male_physique sqrt_w front_a side_a = some result_a := by
  rw [score_male_physique_eq_of_len sqrt_w front_a side_a rfl rfl]
  show some (score_male_core sqrt_w ⟨0, 3 / 5000⟩ zp zp zp zp zp zp
    (some (⟨3 / 500, 0⟩, zp, zp, zp))) = some result_a
  simp only [score_male_core]
  norm_num [dist_a1, dist_a0, shoulders_block_at_1, v_taper_block_at_1, core_block_at_0,
    symmetry_block_at_a, chest_block_at_1, posture_block_at_a, arms_block_at_1,
    int_trunc_50, int_trunc_45, int_trunc_100, int_trunc_60, int_trunc_sym_a,
    int_trunc_post_a, int_trunc_overall_a, result_a, score_items, nkey,
    py_max_by, py_min_by, py_max_step, py_min_step, generate_key_insight,
    insights_map_get, growth_map_get, sort_area_desc, sort_area_asc, sort_by,
    insert_sorted, min_def, max_def, abs_of_nonneg, category_string_facts,
    show zp.x = 0 from rfl, show zp.y = 0 from rfl]
  simp


/-- C2 (counterexample): at the concrete input `front_a` / `side_a` the
emitted `overall_score` is 76, but the floor of the claimed weighted sum of
the emitted integer category scores is 75, so the claimed identity between
the emitted integers fails. -/
theorem c2_int_identity_counterexample :
    (score_male_physique sqrt_w front_a side_a).map
      (fun r => (r.overall_score,
        int_trunc ((r.scores.shoulders : ℚ) * 0.20 + (r.scores.v_taper : ℚ) * 0.18 +
          (r.scores.chest : ℚ) * 0.15 + (r.scores.core : ℚ) * 0.15 +
          (r.scores.symmetry : ℚ) * 0.12 + (r.scores.posture : ℚ) * 0.10 +
          (r.scores.arms : ℚ) * 0.10))) = some (76, 75) ∧ (76 : ℤ) ≠ 75 := by
  refine ⟨?_, by decide⟩
  rw [score_eval_a]
  norm_num [result_a, int_trunc_combo_a]

/-- C3 (counterexample): at the concrete input `front_a` / `side_a` the
maximum category is `core` (score 100) and the minimum category excluding
`overall` is `v_taper` (score 45), yet the emitted key insight ends with
the generic growth fallback sentence, not with the `v_taper` growth
template the claim predicts. -/
theorem c3_key_insight_counterexample :
    (score_male_physique sqrt_w front_a side_a).map (fun r => r.key_insight) =
      some "Your core definition is excellent - this gives you a lean, athletic appearance. Keep working consistently on all muscle groups." ∧
    (score_male_physique sqrt_w front_a side_a).map (fun r => r.scores) =
      some ⟨50, 45, 100, 99, 100, 99, 60, 76⟩ ∧
    ¬("Your core definition is excellent - this gives you a lean, athletic appearance. Keep working consistently on all muscle groups." =
      insights_map_get "core" ++ " " ++ growth_map_get "v_taper") := by
  refine ⟨?_, ?_, ?_⟩
  · rw [score_eval_a]
    simp [result_a]
  · rw [score_eval_a]
    simp [result_a]
  · simp [insights_map_get, growth_map_get]

theorem shoulder_width_lm_b : shoulder_width_ab sqrt_w lm_b = 40 := by
  rw [shoulder_width_ab, show lm_b.getD 11 ⟨0, 0⟩ = zp from rfl,
    show lm_b.getD 12 ⟨0, 0⟩ = (⟨1 / 5, 0⟩ : Point) from rfl]
  norm_num [calculate_distance, sqrt_w, zp]

theorem hip_width_lm_b : hip_width_ab sqrt_w lm_b = 40 := by
  rw [hip_width_ab, show lm_b.getD 23 ⟨0, 0⟩ = zp from rfl,
    show lm_b.getD 24 ⟨0, 0⟩ = (⟨1 / 5, 0⟩ : Point) from rfl]
  norm_num [calculate_distance, sqrt_w, zp]

theorem pyRound_162 : pyRound (162 : ℚ) = 162 :=
  pyRound_eq_of (by norm_num) (by norm_num) (by norm_num)

theorem pyRound_half_a : pyRound (405 / 2 : ℚ) = 202 := by
  unfold pyRound
  rw [show ⌊(405 / 2 : ℚ)⌋ = 202 from Int.floor_eq_iff.mpr (by norm_num)]
  norm_num

/-- C7 (counterexample): on the landmark set `lm_b` (shoulder and hip
width 40, hence waist 30 and BMI proxy 20.25), the emitted body-fat
estimate is 16.2 = clamp(8, 25, 20.25 * 0.8), whereas the claim predicts
clamp(8, 25, 20.25) = 20.25 (20.2 after output rounding): the code scales
the BMI proxy by 0.8 before clamping. -/
theorem c7_bodyfat_counterexample :
    (analyze_body sqrt_w lm_b).map (fun r => r.bodyFatEstimate) = some (81 / 5) ∧
    max 8 (min 25 (estimate_bmi (hip_width_ab sqrt_w lm_b * 0.75)
      (shoulder_width_ab sqrt_w lm_b))) = 81 / 4 ∧
    pyRoundTo 1 (max 8 (min 25 (estimate_bmi (hip_width_ab sqrt_w lm_b * 0.75)
      (shoulder_width_ab sqrt_w lm_b)))) = 101 / 5 ∧
    (81 / 5 : ℚ) ≠ 81 / 4 ∧ (81 / 5 : ℚ) ≠ 101 / 5 := by
  refine ⟨?_, ?_, ?_, by norm_num, by norm_num⟩
  · rw [show analyze_body sqrt_w lm_b = some (analyze_body_core sqrt_w lm_b) from by
      unfold analyze_body
      rw [if_neg (by norm_num [show lm_b.length = 33 from rfl]),
        if_neg (by rw [shoulder_width_lm_b]; norm_num)]]
    simp only [Option.map_some', analyze_body_core]
    rw [shoulder_width_lm_b, hip_width_lm_b]
    norm_num [estimate_bmi, min_def, max_def, pyRoundTo, pyRound_162]
  · rw [shoulder_width_lm_b, hip_width_lm_b]
    norm_num [estimate_bmi, min_def, max_def]
  · rw [shoulder_width_lm_b, hip_width_lm_b]
    norm_num [estimate_bmi, min_def, max_def, pyRoundTo, pyRound_half_a]


end BodyApp
